import Mathlib

/-!
Shallow embedding of `cmd/install/assets/hypershift_operator.go` and
`cmd/infra/destroy.go` from the openshift-hypershift repository fragment.

The Kubernetes API types below model exactly the fields that the Go source
populates; Go pointers to optional sub-objects become `Option`, Go slices
become `List`, Go maps written as literals become association lists in the
literal's order, and `[]byte` becomes `List UInt8`.
-/

set_option maxHeartbeats 1000000

namespace HyperShiftAssets

/-- Kubernetes TypeMeta (kind / apiVersion pair). -/
structure TypeMeta where
  Kind : String := ""
  APIVersion : String := ""
deriving DecidableEq

/-- Kubernetes ObjectMeta: the fields the source sets (name, namespace, labels). -/
structure ObjectMeta where
  Name : String := ""
  Namespace : String := ""
  Labels : List (String × String) := []
deriving DecidableEq

/-- `corev1.SchemeGroupVersion.String()` of the external k8s core/v1 package. -/
def corev1SchemeGroupVersion : String := "v1"

/-- `appsv1.SchemeGroupVersion.String()` of the external k8s apps/v1 package. -/
def appsv1SchemeGroupVersion : String := "apps/v1"

/-- `rbacv1.SchemeGroupVersion.String()` of the external k8s rbac/v1 package. -/
def rbacv1SchemeGroupVersion : String := "rbac.authorization.k8s.io/v1"

/-- `schedulingv1.SchemeGroupVersion.String()` of the external k8s scheduling/v1 package. -/
def schedulingv1SchemeGroupVersion : String := "scheduling.k8s.io/v1"

/-- Modelled from the spec: the platform identity type `hyperv1.PlatformType`
(the `api/v1alpha1` package is not part of this fragment); the spec describes a
private platform as "a configured cloud-provider identity (e.g., "aws",
"none")", i.e. a string. -/
abbrev PlatformType := String

/-- Modelled from the spec: the `hyperv1.NonePlatform` identity, written
"none" in the spec's platform enumeration. -/
def NonePlatform : PlatformType := "none"

/-- Modelled from the spec: the `hyperv1.AWSPlatform` identity, written
"aws" in the spec's platform enumeration. -/
def AWSPlatform : PlatformType := "aws"

/-- Modelled from the spec: the `hyperv1.OperatorComponent` label key used in
pod template labels (defined in the external `api/v1alpha1` package); its
exact value is not observable by any claim. -/
def OperatorComponent : String := "hypershift.openshift.io/operator-component"

/-- `corev1.Namespace`. -/
structure Namespace where
  TypeMeta : TypeMeta := {}
  ObjectMeta : ObjectMeta := {}
deriving DecidableEq

/-- Go's embedded-field promotion: `namespace.Name` is `namespace.ObjectMeta.Name`. -/
def Namespace.Name (n : Namespace) : String := n.ObjectMeta.Name

/-- `corev1.Secret`: metadata plus a data map from keys to byte strings. -/
structure Secret where
  TypeMeta : TypeMeta := {}
  ObjectMeta : ObjectMeta := {}
  Data : List (String × List UInt8) := []
deriving DecidableEq

/-- Promoted field: `secret.Name` is `secret.ObjectMeta.Name`. -/
def Secret.Name (s : Secret) : String := s.ObjectMeta.Name

/-- `corev1.ServiceAccount`. -/
structure ServiceAccount where
  TypeMeta : TypeMeta := {}
  ObjectMeta : ObjectMeta := {}
deriving DecidableEq

/-- Promoted field: `sa.Name` is `sa.ObjectMeta.Name`. -/
def ServiceAccount.Name (s : ServiceAccount) : String := s.ObjectMeta.Name

/-- Promoted field: `sa.Namespace` is `sa.ObjectMeta.Namespace`. -/
def ServiceAccount.Namespace (s : ServiceAccount) : String := s.ObjectMeta.Namespace

/-- `corev1.ObjectFieldSelector`. -/
structure ObjectFieldSelector where
  FieldPath : String := ""
deriving DecidableEq

/-- `corev1.EnvVarSource`: only the FieldRef member is used by the source. -/
structure EnvVarSource where
  FieldRef : Option ObjectFieldSelector := none
deriving DecidableEq

/-- `corev1.EnvVar`. -/
structure EnvVar where
  Name : String := ""
  Value : String := ""
  ValueFrom : Option EnvVarSource := none
deriving DecidableEq

/-- `corev1.VolumeMount`: the fields the source sets. -/
structure VolumeMount where
  Name : String := ""
  MountPath : String := ""
deriving DecidableEq

/-- `corev1.SecretVolumeSource`. -/
structure SecretVolumeSource where
  SecretName : String := ""
deriving DecidableEq

/-- `corev1.ServiceAccountTokenProjection`. -/
structure ServiceAccountTokenProjection where
  Audience : String := ""
  Path : String := ""
deriving DecidableEq

/-- `corev1.VolumeProjection`: only the ServiceAccountToken member is used. -/
structure VolumeProjection where
  ServiceAccountToken : Option ServiceAccountTokenProjection := none
deriving DecidableEq

/-- `corev1.ProjectedVolumeSource`. -/
structure ProjectedVolumeSource where
  Sources : List VolumeProjection := []
deriving DecidableEq

/-- `corev1.VolumeSource`: the two members the source uses (Secret, Projected). -/
structure VolumeSource where
  Secret : Option SecretVolumeSource := none
  Projected : Option ProjectedVolumeSource := none
deriving DecidableEq

/-- `corev1.Volume`. -/
structure Volume where
  Name : String := ""
  VolumeSource : VolumeSource := {}
deriving DecidableEq

/-- `intstr.IntOrString`. -/
inductive IntOrString where
  | ofInt : Int → IntOrString
  | ofString : String → IntOrString
deriving DecidableEq

/-- `corev1.HTTPGetAction`. -/
structure HTTPGetAction where
  Path : String := ""
  Port : IntOrString := .ofInt 0
  Scheme : String := ""
deriving DecidableEq

/-- `corev1.ProbeHandler`: only the HTTPGet member is used. -/
structure ProbeHandler where
  HTTPGet : Option HTTPGetAction := none
deriving DecidableEq

/-- `corev1.Probe`. -/
structure Probe where
  ProbeHandler : ProbeHandler := {}
  InitialDelaySeconds : Int := 0
  PeriodSeconds : Int := 0
  SuccessThreshold : Int := 0
  FailureThreshold : Int := 0
  TimeoutSeconds : Int := 0
deriving DecidableEq

/-- `corev1.ResourceRequirements`: requests as an association list from
resource name to the literal quantity string passed to `resource.MustParse`. -/
structure ResourceRequirements where
  Requests : List (String × String) := []
deriving DecidableEq

/-- `corev1.ContainerPort`. -/
structure ContainerPort where
  Name : String := ""
  ContainerPort : Int := 0
  Protocol : String := ""
deriving DecidableEq

/-- `corev1.SecurityContext`: only RunAsUser is set by the source. -/
structure SecurityContext where
  RunAsUser : Option Int := none
deriving DecidableEq

/-- `corev1.Container`: the fields the source sets. -/
structure Container where
  Name : String := ""
  Image : String := ""
  ImagePullPolicy : String := ""
  Command : List String := []
  Args : List String := []
  Env : List EnvVar := []
  Ports : List ContainerPort := []
  LivenessProbe : Option Probe := none
  ReadinessProbe : Option Probe := none
  Resources : ResourceRequirements := {}
  VolumeMounts : List VolumeMount := []
  SecurityContext : Option SecurityContext := none
deriving DecidableEq

/-- `corev1.PodSpec`: the fields the source sets. -/
structure PodSpec where
  ServiceAccountName : String := ""
  Containers : List Container := []
  Volumes : List Volume := []
deriving DecidableEq

/-- `corev1.PodTemplateSpec`. -/
structure PodTemplateSpec where
  ObjectMeta : ObjectMeta := {}
  Spec : PodSpec := {}
deriving DecidableEq

/-- `metav1.LabelSelector`: only MatchLabels is used. -/
structure LabelSelector where
  MatchLabels : List (String × String) := []
deriving DecidableEq

/-- `appsv1.DeploymentSpec`: Replicas (a pointed-to int32 in Go, the pointee
here), Selector, Template. -/
structure DeploymentSpec where
  Replicas : Int := 0
  Selector : LabelSelector := {}
  Template : PodTemplateSpec := {}
deriving DecidableEq

/-- `appsv1.Deployment`. -/
structure Deployment where
  TypeMeta : TypeMeta := {}
  ObjectMeta : ObjectMeta := {}
  Spec : DeploymentSpec := {}
deriving DecidableEq

/-- `rbacv1.PolicyRule`. -/
structure PolicyRule where
  APIGroups : List String := []
  Resources : List String := []
  Verbs : List String := []
deriving DecidableEq

/-- `rbacv1.ClusterRole`. -/
structure ClusterRole where
  TypeMeta : TypeMeta := {}
  ObjectMeta : ObjectMeta := {}
  Rules : List PolicyRule := []
deriving DecidableEq

/-- Promoted field: `role.Name` is `role.ObjectMeta.Name`. -/
def ClusterRole.Name (r : ClusterRole) : String := r.ObjectMeta.Name

/-- `rbacv1.Role`. -/
structure Role where
  TypeMeta : TypeMeta := {}
  ObjectMeta : ObjectMeta := {}
  Rules : List PolicyRule := []
deriving DecidableEq

/-- Promoted field: `role.Name` is `role.ObjectMeta.Name`. -/
def Role.Name (r : Role) : String := r.ObjectMeta.Name

/-- `rbacv1.RoleRef`. -/
structure RoleRef where
  APIGroup : String := ""
  Kind : String := ""
  Name : String := ""
deriving DecidableEq

/-- `rbacv1.Subject`. -/
structure Subject where
  Kind : String := ""
  APIGroup : String := ""
  Name : String := ""
  Namespace : String := ""
deriving DecidableEq

/-- `rbacv1.RoleBinding`. -/
structure RoleBinding where
  TypeMeta : TypeMeta := {}
  ObjectMeta : ObjectMeta := {}
  RoleRef : RoleRef := {}
  Subjects : List Subject := []
deriving DecidableEq

/-- `rbacv1.ClusterRoleBinding`. -/
structure ClusterRoleBinding where
  TypeMeta : TypeMeta := {}
  ObjectMeta : ObjectMeta := {}
  RoleRef : RoleRef := {}
  Subjects : List Subject := []
deriving DecidableEq

/-- `prometheusoperatorv1.SchemeGroupVersion.String()` of the external
prometheus-operator monitoring/v1 package. -/
def prometheusoperatorv1SchemeGroupVersion : String := "monitoring.coreos.com/v1"

/-- `corev1.ServicePort`. -/
structure ServicePort where
  Name : String := ""
  Protocol : String := ""
  Port : Int := 0
  TargetPort : IntOrString := .ofInt 0
deriving DecidableEq

/-- `corev1.ServiceSpec`: the fields the source sets. -/
structure ServiceSpec where
  «Type» : String := ""
  Selector : List (String × String) := []
  Ports : List ServicePort := []
deriving DecidableEq

/-- `corev1.Service`. -/
structure Service where
  TypeMeta : TypeMeta := {}
  ObjectMeta : ObjectMeta := {}
  Spec : ServiceSpec := {}
deriving DecidableEq

/-- `schedulingv1.PriorityClass`. -/
structure PriorityClass where
  TypeMeta : TypeMeta := {}
  ObjectMeta : ObjectMeta := {}
  Value : Int := 0
  GlobalDefault : Bool := false
  Description : String := ""
deriving DecidableEq

/-- `prometheusoperatorv1.Endpoint`: the fields the source sets. -/
structure Endpoint where
  Interval : String := ""
  Port : String := ""
deriving DecidableEq

/-- `prometheusoperatorv1.ServiceMonitorSpec`: the fields the source sets. -/
structure ServiceMonitorSpec where
  JobLabel : String := ""
  Selector : LabelSelector := {}
  Endpoints : List Endpoint := []
deriving DecidableEq

/-- `prometheusoperatorv1.ServiceMonitor`. -/
structure ServiceMonitor where
  TypeMeta : TypeMeta := {}
  ObjectMeta : ObjectMeta := {}
  Spec : ServiceMonitorSpec := {}
deriving DecidableEq

/-- Modelled from the spec: `prometheusoperatorv1.PrometheusRuleSpec`, the
recording-rule specification type; the source fragment only stores a value of
it produced by `recordingRuleSpec()`, whose definition is not part of the
fragment, so the spec's groups are left abstract as a list. -/
structure PrometheusRuleSpec where
  Groups : List String := []
deriving DecidableEq

/-- `prometheusoperatorv1.PrometheusRule`. -/
structure PrometheusRule where
  TypeMeta : TypeMeta := {}
  ObjectMeta : ObjectMeta := {}
  Spec : PrometheusRuleSpec := {}
deriving DecidableEq

/-- Modelled from the spec: `recordingRuleSpec()`, defined elsewhere in the
`assets` package and absent from this fragment; per the spec all construction
is pure, so it is a fixed specification value. -/
def recordingRuleSpec : PrometheusRuleSpec := {}

/-! Constants from the source file. -/

/-- `awsCredsSecretName`. -/
def awsCredsSecretName : String := "hypershift-operator-aws-credentials"

/-- `awsCredsSecretKey`. -/
def awsCredsSecretKey : String := "credentials"

/-- `oidcProviderS3CredsSecretName`. -/
def oidcProviderS3CredsSecretName : String := "hypershift-operator-oidc-provider-s3-credentials"

/-- `externaDNSCredsSecretName` (name as in the source). -/
def externaDNSCredsSecretName : String := "external-dns-credentials"

/-! Helpers mirroring Go's in-place mutation of the freshly built deployment:
`deployment.Spec.Template.Spec.X = append(...)` becomes a functional update. -/

/-- Append volumes to a deployment's pod spec
(`deployment.Spec.Template.Spec.Volumes = append(...)`). -/
def Deployment.appendVolumes (d : Deployment) (vs : List Volume) : Deployment :=
  { d with Spec := { d.Spec with Template := { d.Spec.Template with
      Spec := { d.Spec.Template.Spec with Volumes := d.Spec.Template.Spec.Volumes ++ vs } } } }

/-- Update container 0 of a deployment's pod spec
(`deployment.Spec.Template.Spec.Containers[0]` assignment). -/
def Deployment.updateContainer0 (d : Deployment) (f : Container → Container) : Deployment :=
  { d with Spec := { d.Spec with Template := { d.Spec.Template with
      Spec := { d.Spec.Template.Spec with
        Containers :=
          match d.Spec.Template.Spec.Containers with
          | [] => []
          | c :: cs => f c :: cs } } } }

/-- Append env vars to container 0
(`...Containers[0].Env = append(...Containers[0].Env, ...)`). -/
def Deployment.appendEnv0 (d : Deployment) (es : List EnvVar) : Deployment :=
  d.updateContainer0 fun c => { c with Env := c.Env ++ es }

/-- Append volume mounts to container 0. -/
def Deployment.appendVolumeMounts0 (d : Deployment) (ms : List VolumeMount) : Deployment :=
  d.updateContainer0 fun c => { c with VolumeMounts := c.VolumeMounts ++ ms }

/-- Append args to container 0. -/
def Deployment.appendArgs0 (d : Deployment) (as : List String) : Deployment :=
  d.updateContainer0 fun c => { c with Args := c.Args ++ as }

/-- The pod volumes of a deployment. -/
def Deployment.podVolumes (d : Deployment) : List Volume :=
  d.Spec.Template.Spec.Volumes

/-- The containers of a deployment's pod spec. -/
def Deployment.containers (d : Deployment) : List Container :=
  d.Spec.Template.Spec.Containers

/-- Whether the pod spec declares a volume with the given name. -/
def Deployment.hasVolumeNamed (d : Deployment) (n : String) : Bool :=
  d.podVolumes.any fun v => v.Name == n

/-- Whether some container of the pod spec has a volume mount with the given
name. -/
def Deployment.hasMountNamed (d : Deployment) (n : String) : Bool :=
  d.containers.any fun c => c.VolumeMounts.any fun m => m.Name == n

/-- Whether every volume mount of every container names a volume declared in
the same pod spec. -/
def Deployment.mountsCovered (d : Deployment) : Bool :=
  d.containers.all fun c =>
    c.VolumeMounts.all fun m => d.podVolumes.any fun v => v.Name == m.Name

/-! The builders, in source order. -/

/-- `ExternalDNSCredsSecret` builder configuration. -/
structure ExternalDNSCredsSecret where
  Namespace : Namespace
  CredsBytes : List UInt8
deriving DecidableEq

/-- `ExternalDNSCredsSecret.Build`. -/
def ExternalDNSCredsSecret.Build (o : ExternalDNSCredsSecret) : Secret :=
  { TypeMeta := { Kind := "Secret", APIVersion := corev1SchemeGroupVersion }
    ObjectMeta := { Name := externaDNSCredsSecretName, Namespace := o.Namespace.Name }
    Data := [("credentials", o.CredsBytes)] }

/-- `ExternalDNSDeployment` builder configuration. -/
structure ExternalDNSDeployment where
  Namespace : Namespace
  Image : String
  ServiceAccount : ServiceAccount
  Provider : String
  DomainFilter : String
  CredentialsSecret : Secret
deriving DecidableEq

/-- `ExternalDNSDeployment.Build`: the deployment literal, then the
platform-specific `switch o.Provider` appending AWS env vars and an arg. -/
def ExternalDNSDeployment.Build (o : ExternalDNSDeployment) : Deployment :=
  let deployment : Deployment :=
    { TypeMeta := { Kind := "Deployment", APIVersion := appsv1SchemeGroupVersion }
      ObjectMeta := { Name := "external-dns", Namespace := o.Namespace.Name }
      Spec :=
        { Selector := { MatchLabels := [("name", "external-dns")] }
          Replicas := 1
          Template :=
            { ObjectMeta := { Labels :=
                [("name", "external-dns"), ("app", "external-dns"),
                 (OperatorComponent, "external-dns")] }
              Spec :=
                { ServiceAccountName := o.ServiceAccount.Name
                  Containers :=
                    [{ Name := "external-dns"
                       Image := o.Image
                       ImagePullPolicy := "IfNotPresent"
                       Command := ["/external-dns"]
                       Args :=
                         ["--source=service",
                          "--source=openshift-route",
                          "--domain-filter=" ++ o.DomainFilter,
                          "--provider=" ++ o.Provider,
                          "--registry=noop",
                          "--txt-owner-id=hypershift"]
                       Ports := [{ Name := "metrics", ContainerPort := 7979 }]
                       LivenessProbe := some
                         { ProbeHandler :=
                             { HTTPGet := some
                                 { Path := "/healthz", Port := .ofInt 7979, Scheme := "HTTP" } }
                           InitialDelaySeconds := 60
                           PeriodSeconds := 60
                           SuccessThreshold := 1
                           FailureThreshold := 5
                           TimeoutSeconds := 5 }
                       Resources := { Requests := [("memory", "20Mi"), ("cpu", "5m")] }
                       VolumeMounts :=
                         [{ Name := "credentials", MountPath := "/etc/provider" }] }]
                  Volumes :=
                    [{ Name := "credentials"
                       VolumeSource :=
                         { Secret := some
                             { SecretName := o.CredentialsSecret.Name } } }] } } } }
  if o.Provider == "aws" then
    (deployment.appendEnv0
      [{ Name := "AWS_SHARED_CREDENTIALS_FILE", Value := "/etc/provider/credentials" },
       { Name := "AWS_REGION", Value := "us-east-1" }]).appendArgs0
      ["--aws-zone-type=public"]
  else
    deployment

/-- `HyperShiftOperatorDeployment` builder configuration. -/
structure HyperShiftOperatorDeployment where
  Namespace : Namespace
  OperatorImage : String
  ServiceAccount : ServiceAccount
  Replicas : Int
  EnableOCPClusterMonitoring : Bool
  EnableCIDebugOutput : Bool
  PrivatePlatform : String
  AWSPrivateCreds : String
  AWSPrivateRegion : String
  OIDCBucketName : String
  OIDCBucketRegion : String
  OIDCStorageProviderS3Secret : Option Secret
  OIDCStorageProviderS3SecretKey : String
deriving DecidableEq

/-- Go's `fmt.Sprintf("%t", b)`. -/
def boolFmt (b : Bool) : String := if b then "true" else "false"

/-- The base argument list the operator deployment builder starts from
(`args` before the OIDC block in `HyperShiftOperatorDeployment.Build`). -/
def HyperShiftOperatorDeployment.baseArgs (o : HyperShiftOperatorDeployment) : List String :=
  ["run",
   "--namespace=$(MY_NAMESPACE)",
   "--deployment-name=operator",
   "--metrics-addr=:9000",
   "--enable-ocp-cluster-monitoring=" ++ boolFmt o.EnableOCPClusterMonitoring,
   "--enable-ci-debug-output=" ++ boolFmt o.EnableCIDebugOutput,
   "--private-platform=" ++ o.PrivatePlatform]

/-- The guard of the OIDC block in `HyperShiftOperatorDeployment.Build`:
`len(o.OIDCBucketName) > 0 && len(o.OIDCBucketRegion) > 0 &&
len(o.OIDCStorageProviderS3SecretKey) > 0 && o.OIDCStorageProviderS3Secret != nil &&
len(o.OIDCStorageProviderS3Secret.Name) > 0`. -/
def HyperShiftOperatorDeployment.oidcEnabled (o : HyperShiftOperatorDeployment) : Bool :=
  decide (0 < o.OIDCBucketName.length) &&
  decide (0 < o.OIDCBucketRegion.length) &&
  decide (0 < o.OIDCStorageProviderS3SecretKey.length) &&
  (match o.OIDCStorageProviderS3Secret with
   | some s => decide (0 < s.Name.length)
   | none => false)

/-- The name of the OIDC secret as read inside the guarded block
(`o.OIDCStorageProviderS3Secret.Name`; only evaluated when the guard holds,
so the `none` arm is unreachable there). -/
def HyperShiftOperatorDeployment.oidcSecretName (o : HyperShiftOperatorDeployment) : String :=
  match o.OIDCStorageProviderS3Secret with
  | some s => s.Name
  | none => ""

/-- `HyperShiftOperatorDeployment.Build`: args/volume/mount assembly gated by
the OIDC guard, the deployment literal, the early return for the "none"
private platform, the generic provider-credentials volume/mount, and the
AWS-specific env vars and token volume. -/
def HyperShiftOperatorDeployment.Build (o : HyperShiftOperatorDeployment) : Deployment :=
  let args : List String :=
    if o.oidcEnabled then
      o.baseArgs ++
        ["--oidc-storage-provider-s3-bucket-name=" ++ o.OIDCBucketName,
         "--oidc-storage-provider-s3-region=" ++ o.OIDCBucketRegion,
         "--oidc-storage-provider-s3-credentials=/etc/oidc-storage-provider-s3-creds/" ++
           o.OIDCStorageProviderS3SecretKey]
    else o.baseArgs
  let oidcVolumeMount : List VolumeMount :=
    if o.oidcEnabled then
      [{ Name := "oidc-storage-provider-s3-creds"
         MountPath := "/etc/oidc-storage-provider-s3-creds" }]
    else []
  let oidcVolumeCred : List Volume :=
    if o.oidcEnabled then
      [{ Name := "oidc-storage-provider-s3-creds"
         VolumeSource := { Secret := some { SecretName := o.oidcSecretName } } }]
    else []
  let envVars : List EnvVar :=
    [{ Name := "MY_NAMESPACE"
       ValueFrom := some { FieldRef := some { FieldPath := "metadata.namespace" } } }]
  let deployment : Deployment :=
    { TypeMeta := { Kind := "Deployment", APIVersion := appsv1SchemeGroupVersion }
      ObjectMeta := { Name := "operator", Namespace := o.Namespace.Name }
      Spec :=
        { Replicas := o.Replicas
          Selector := { MatchLabels := [("name", "operator")] }
          Template :=
            { ObjectMeta := { Labels :=
                [("name", "operator"), (OperatorComponent, "operator"),
                 ("app", "operator")] }
              Spec :=
                { ServiceAccountName := o.ServiceAccount.Name
                  Containers :=
                    [{ Name := "operator"
                       SecurityContext := some { RunAsUser := some 1000 }
                       Image := o.OperatorImage
                       ImagePullPolicy := "Always"
                       Env := envVars
                       Command := ["/usr/bin/hypershift-operator"]
                       Args := args
                       LivenessProbe := some
                         { ProbeHandler :=
                             { HTTPGet := some
                                 { Path := "/metrics", Port := .ofInt 9000, Scheme := "HTTP" } }
                           InitialDelaySeconds := 60
                           PeriodSeconds := 60
                           SuccessThreshold := 1
                           FailureThreshold := 5
                           TimeoutSeconds := 5 }
                       ReadinessProbe := some
                         { ProbeHandler :=
                             { HTTPGet := some
                                 { Path := "/metrics", Port := .ofInt 9000, Scheme := "HTTP" } }
                           InitialDelaySeconds := 15
                           PeriodSeconds := 60
                           SuccessThreshold := 1
                           FailureThreshold := 3
                           TimeoutSeconds := 5 }
                       Ports := [{ Name := "metrics", ContainerPort := 9000, Protocol := "TCP" }]
                       Resources := { Requests := [("memory", "150Mi"), ("cpu", "10m")] }
                       VolumeMounts := oidcVolumeMount }]
                  Volumes := oidcVolumeCred } } } }
  if (o.PrivatePlatform : PlatformType) == NonePlatform then deployment
  else
    let d1 := deployment.appendVolumes
      [{ Name := "credentials"
         VolumeSource := { Secret := some { SecretName := awsCredsSecretName } } }]
    let d2 := d1.appendVolumeMounts0
      [{ Name := "credentials", MountPath := "/etc/provider" }]
    if (o.PrivatePlatform : PlatformType) == AWSPlatform then
      ((d2.appendEnv0
        [{ Name := "AWS_SHARED_CREDENTIALS_FILE", Value := "/etc/provider/credentials" },
         { Name := "AWS_REGION", Value := o.AWSPrivateRegion }]).appendVolumeMounts0
        [{ Name := "token", MountPath := "/var/run/secrets/openshift/serviceaccount" }]).appendVolumes
        [{ Name := "token"
           VolumeSource := { Projected := some { Sources :=
             [{ ServiceAccountToken := some { Audience := "openshift", Path := "token" } }] } } }]
    else d2

/-- `ExternalDNSClusterRoleBinding` builder configuration. -/
structure ExternalDNSClusterRoleBinding where
  ClusterRole : ClusterRole
  ServiceAccount : ServiceAccount
deriving DecidableEq

/-- `ExternalDNSClusterRoleBinding.Build`. -/
def ExternalDNSClusterRoleBinding.Build (o : ExternalDNSClusterRoleBinding) : ClusterRoleBinding :=
  { TypeMeta := { Kind := "ClusterRoleBinding", APIVersion := rbacv1SchemeGroupVersion }
    ObjectMeta := { Name := "external-dns" }
    RoleRef :=
      { APIGroup := "rbac.authorization.k8s.io"
        Kind := "ClusterRole"
        Name := o.ClusterRole.Name }
    Subjects :=
      [{ Kind := "ServiceAccount"
         Name := o.ServiceAccount.Name
         Namespace := o.ServiceAccount.Namespace }] }

/-- `HyperShiftOperatorClusterRoleBinding` builder configuration. -/
structure HyperShiftOperatorClusterRoleBinding where
  ClusterRole : ClusterRole
  ServiceAccount : ServiceAccount
deriving DecidableEq

/-- `HyperShiftOperatorClusterRoleBinding.Build`. -/
def HyperShiftOperatorClusterRoleBinding.Build (o : HyperShiftOperatorClusterRoleBinding) :
    ClusterRoleBinding :=
  { TypeMeta := { Kind := "ClusterRoleBinding", APIVersion := rbacv1SchemeGroupVersion }
    ObjectMeta := { Name := "hypershift-operator" }
    RoleRef :=
      { APIGroup := "rbac.authorization.k8s.io"
        Kind := "ClusterRole"
        Name := o.ClusterRole.Name }
    Subjects :=
      [{ Kind := "ServiceAccount"
         Name := o.ServiceAccount.Name
         Namespace := o.ServiceAccount.Namespace }] }

/-- `HyperShiftOperatorRoleBinding` builder configuration. -/
structure HyperShiftOperatorRoleBinding where
  Role : Role
  ServiceAccount : ServiceAccount
deriving DecidableEq

/-- `HyperShiftOperatorRoleBinding.Build`. -/
def HyperShiftOperatorRoleBinding.Build (o : HyperShiftOperatorRoleBinding) : RoleBinding :=
  { TypeMeta := { Kind := "RoleBinding", APIVersion := rbacv1SchemeGroupVersion }
    ObjectMeta := { Namespace := o.ServiceAccount.Namespace, Name := "hypershift-operator" }
    RoleRef :=
      { APIGroup := "rbac.authorization.k8s.io"
        Kind := "Role"
        Name := o.Role.Name }
    Subjects :=
      [{ Kind := "ServiceAccount"
         Name := o.ServiceAccount.Name
         Namespace := o.ServiceAccount.Namespace }] }

/-- `HyperShiftOperatorPrometheusRoleBinding` builder configuration. -/
structure HyperShiftOperatorPrometheusRoleBinding where
  Namespace : Namespace
  Role : Role
  EnableOCPClusterMonitoring : Bool
deriving DecidableEq

/-- `HyperShiftOperatorPrometheusRoleBinding.Build`: the subject defaults to
prometheus-user-workload and is overwritten when OCP cluster monitoring is
enabled. -/
def HyperShiftOperatorPrometheusRoleBinding.Build (o : HyperShiftOperatorPrometheusRoleBinding) :
    RoleBinding :=
  let subject : Subject :=
    { Kind := "ServiceAccount"
      Name := "prometheus-user-workload"
      Namespace := "openshift-user-workload-monitoring" }
  let subject : Subject :=
    if o.EnableOCPClusterMonitoring then
      { subject with Name := "prometheus-k8s", Namespace := "openshift-monitoring" }
    else subject
  { TypeMeta := { Kind := "RoleBinding", APIVersion := rbacv1SchemeGroupVersion }
    ObjectMeta := { Namespace := o.Namespace.Name, Name := "prometheus" }
    RoleRef :=
      { APIGroup := "rbac.authorization.k8s.io"
        Kind := "Role"
        Name := o.Role.Name }
    Subjects := [subject] }

/-- `EtcdPriorityClass` constant. -/
def EtcdPriorityClass : String := "hypershift-etcd"

/-- `APICriticalPriorityClass` constant. -/
def APICriticalPriorityClass : String := "hypershift-api-critical"

/-- `DefaultPriorityClass` constant. -/
def DefaultPriorityClass : String := "hypershift-control-plane"

/-- `HyperShiftNamespace` builder configuration. -/
structure HyperShiftNamespace where
  Name : String
  EnableOCPClusterMonitoring : Bool
deriving DecidableEq

/-- `HyperShiftNamespace.Build`: the namespace literal, then the monitoring
label assigned when OCP cluster monitoring is enabled. -/
def HyperShiftNamespace.Build (o : HyperShiftNamespace) : Namespace :=
  let ns : Namespace :=
    { TypeMeta := { Kind := "Namespace", APIVersion := corev1SchemeGroupVersion }
      ObjectMeta := { Name := o.Name } }
  if o.EnableOCPClusterMonitoring then
    { ns with ObjectMeta := { ns.ObjectMeta with
        Labels := [("openshift.io/cluster-monitoring", "true")] } }
  else ns

/-- `HyperShiftOperatorCredentialsSecret` builder configuration. -/
structure HyperShiftOperatorCredentialsSecret where
  Namespace : Namespace
  CredsBytes : List UInt8
deriving DecidableEq

/-- `HyperShiftOperatorCredentialsSecret.Build`. -/
def HyperShiftOperatorCredentialsSecret.Build (o : HyperShiftOperatorCredentialsSecret) :
    Secret :=
  { TypeMeta := { Kind := "Secret", APIVersion := corev1SchemeGroupVersion }
    ObjectMeta := { Name := awsCredsSecretName, Namespace := o.Namespace.Name }
    Data := [(awsCredsSecretKey, o.CredsBytes)] }

/-- `HyperShiftOperatorOIDCProviderS3Secret` builder configuration. -/
structure HyperShiftOperatorOIDCProviderS3Secret where
  Namespace : Namespace
  OIDCStorageProviderS3CredBytes : List UInt8
  CredsKey : String
deriving DecidableEq

/-- `HyperShiftOperatorOIDCProviderS3Secret.Build`. -/
def HyperShiftOperatorOIDCProviderS3Secret.Build (o : HyperShiftOperatorOIDCProviderS3Secret) :
    Secret :=
  { TypeMeta := { Kind := "Secret", APIVersion := corev1SchemeGroupVersion }
    ObjectMeta := { Name := oidcProviderS3CredsSecretName, Namespace := o.Namespace.Name }
    Data := [(o.CredsKey, o.OIDCStorageProviderS3CredBytes)] }

/-- `HyperShiftOperatorService` builder configuration. -/
structure HyperShiftOperatorService where
  Namespace : Namespace
deriving DecidableEq

/-- `HyperShiftOperatorService.Build`. -/
def HyperShiftOperatorService.Build (o : HyperShiftOperatorService) : Service :=
  { TypeMeta := { Kind := "Service", APIVersion := corev1SchemeGroupVersion }
    ObjectMeta :=
      { Namespace := o.Namespace.Name
        Name := "operator"
        Labels := [("name", "operator")] }
    Spec :=
      { «Type» := "ClusterIP"
        Selector := [("name", "operator")]
        Ports :=
          [{ Name := "metrics"
             Protocol := "TCP"
             Port := 9393
             TargetPort := .ofString "metrics" }] } }

/-- `ExternalDNSServiceAccount` builder configuration. -/
structure ExternalDNSServiceAccount where
  Namespace : Namespace
deriving DecidableEq

/-- `ExternalDNSServiceAccount.Build`. -/
def ExternalDNSServiceAccount.Build (o : ExternalDNSServiceAccount) : ServiceAccount :=
  { TypeMeta := { Kind := "ServiceAccount", APIVersion := corev1SchemeGroupVersion }
    ObjectMeta := { Namespace := o.Namespace.Name, Name := "external-dns" } }

/-- `ExternalDNSClusterRole` builder configuration (no fields). -/
structure ExternalDNSClusterRole
deriving DecidableEq

/-- `ExternalDNSClusterRole.Build`. -/
def ExternalDNSClusterRole.Build (_o : ExternalDNSClusterRole) : ClusterRole :=
  { TypeMeta := { Kind := "ClusterRole", APIVersion := rbacv1SchemeGroupVersion }
    ObjectMeta := { Name := "external-dns" }
    Rules :=
      [{ APIGroups := ["route.openshift.io"]
         Resources := ["*"]
         Verbs := ["get", "list", "watch"] },
       { APIGroups := [""]
         Resources := ["endpoints", "services", "nodes", "pods"]
         Verbs := ["get", "list", "watch"] }] }

/-- `HyperShiftOperatorServiceAccount` builder configuration. -/
structure HyperShiftOperatorServiceAccount where
  Namespace : Namespace
deriving DecidableEq

/-- `HyperShiftOperatorServiceAccount.Build`. -/
def HyperShiftOperatorServiceAccount.Build (o : HyperShiftOperatorServiceAccount) :
    ServiceAccount :=
  { TypeMeta := { Kind := "ServiceAccount", APIVersion := corev1SchemeGroupVersion }
    ObjectMeta := { Namespace := o.Namespace.Name, Name := "operator" } }

/-- `HyperShiftOperatorClusterRole` builder configuration (no fields). -/
structure HyperShiftOperatorClusterRole
deriving DecidableEq

/-- `HyperShiftOperatorClusterRole.Build`. -/
def HyperShiftOperatorClusterRole.Build (_o : HyperShiftOperatorClusterRole) : ClusterRole :=
  { TypeMeta := { Kind := "ClusterRole", APIVersion := rbacv1SchemeGroupVersion }
    ObjectMeta := { Name := "hypershift-operator" }
    Rules :=
      [{ APIGroups := ["hypershift.openshift.io"], Resources := ["*"], Verbs := ["*"] },
       { APIGroups := ["config.openshift.io"], Resources := ["*"],
         Verbs := ["get", "list", "watch"] },
       { APIGroups := ["apiextensions.k8s.io"], Resources := ["customresourcedefinitions"],
         Verbs := ["*"] },
       { APIGroups := ["batch"], Resources := ["cronjobs", "jobs"], Verbs := ["*"] },
       { APIGroups := ["coordination.k8s.io"], Resources := ["leases"], Verbs := ["*"] },
       { APIGroups := ["networking.k8s.io"], Resources := ["networkpolicies"],
         Verbs := ["*"] },
       { APIGroups :=
           ["bootstrap.cluster.x-k8s.io",
            "controlplane.cluster.x-k8s.io",
            "infrastructure.cluster.x-k8s.io",
            "machines.cluster.x-k8s.io",
            "exp.infrastructure.cluster.x-k8s.io",
            "addons.cluster.x-k8s.io",
            "exp.cluster.x-k8s.io",
            "cluster.x-k8s.io",
            "monitoring.coreos.com"]
         Resources := ["*"]
         Verbs := ["*"] },
       { APIGroups := ["policy"], Resources := ["poddisruptionbudgets"], Verbs := ["*"] },
       { APIGroups := ["operator.openshift.io"], Resources := ["*"], Verbs := ["*"] },
       { APIGroups := ["route.openshift.io"], Resources := ["*"], Verbs := ["*"] },
       { APIGroups := ["security.openshift.io"], Resources := ["securitycontextconstraints"],
         Verbs := ["*"] },
       { APIGroups := ["rbac.authorization.k8s.io"], Resources := ["*"],
         Verbs := ["get", "list", "watch", "create", "update", "patch", "delete"] },
       { APIGroups := [""]
         Resources :=
           ["events", "configmaps", "pods", "pods/log", "secrets", "nodes",
            "namespaces", "serviceaccounts", "services", "endpoints"]
         Verbs := ["*"] },
       { APIGroups := ["apps"], Resources := ["deployments", "statefulsets"],
         Verbs := ["*"] },
       { APIGroups := ["etcd.database.coreos.com"], Resources := ["*"], Verbs := ["*"] },
       { APIGroups := ["machine.openshift.io"], Resources := ["*"], Verbs := ["*"] },
       { APIGroups := ["monitoring.coreos.com"], Resources := ["podmonitors"],
         Verbs := ["get", "list", "watch", "create", "update"] },
       { APIGroups := ["capi-provider.agent-install.openshift.io"], Resources := ["*"],
         Verbs := ["*"] },
       { APIGroups := ["operator.openshift.io"], Resources := ["ingresscontrollers"],
         Verbs := ["*"] },
       { APIGroups := ["kubevirt.io"],
         Resources := ["virtualmachineinstances", "virtualmachines"], Verbs := ["*"] },
       { APIGroups := ["agent-install.openshift.io"], Resources := ["agents"],
         Verbs := ["*"] }] }

/-- `HyperShiftOperatorRole` builder configuration. -/
structure HyperShiftOperatorRole where
  Namespace : Namespace
deriving DecidableEq

/-- `HyperShiftOperatorRole.Build`. -/
def HyperShiftOperatorRole.Build (o : HyperShiftOperatorRole) : Role :=
  { TypeMeta := { Kind := "Role", APIVersion := rbacv1SchemeGroupVersion }
    ObjectMeta := { Namespace := o.Namespace.Name, Name := "hypershift-operator" }
    Rules :=
      [{ APIGroups := ["coordination.k8s.io"], Resources := ["leases"], Verbs := ["*"] }] }

/-- `HyperShiftControlPlanePriorityClass` builder configuration (no fields). -/
structure HyperShiftControlPlanePriorityClass
deriving DecidableEq

/-- `HyperShiftControlPlanePriorityClass.Build`. -/
def HyperShiftControlPlanePriorityClass.Build (_o : HyperShiftControlPlanePriorityClass) :
    PriorityClass :=
  { TypeMeta := { Kind := "PriorityClass", APIVersion := schedulingv1SchemeGroupVersion }
    ObjectMeta := { Name := DefaultPriorityClass }
    Value := 100000000
    GlobalDefault := false
    Description :=
      "This priority class should be used for hypershift control plane pods not critical to serving the API." }

/-- `HyperShiftAPICriticalPriorityClass` builder configuration (no fields). -/
structure HyperShiftAPICriticalPriorityClass
deriving DecidableEq

/-- `HyperShiftAPICriticalPriorityClass.Build`. -/
def HyperShiftAPICriticalPriorityClass.Build (_o : HyperShiftAPICriticalPriorityClass) :
    PriorityClass :=
  { TypeMeta := { Kind := "PriorityClass", APIVersion := schedulingv1SchemeGroupVersion }
    ObjectMeta := { Name := APICriticalPriorityClass }
    Value := 100001000
    GlobalDefault := false
    Description :=
      "This priority class should be used for hypershift control plane pods critical to serving the API." }

/-- `HyperShiftEtcdPriorityClass` builder configuration (no fields). -/
structure HyperShiftEtcdPriorityClass
deriving DecidableEq

/-- `HyperShiftEtcdPriorityClass.Build`. -/
def HyperShiftEtcdPriorityClass.Build (_o : HyperShiftEtcdPriorityClass) : PriorityClass :=
  { TypeMeta := { Kind := "PriorityClass", APIVersion := schedulingv1SchemeGroupVersion }
    ObjectMeta := { Name := EtcdPriorityClass }
    Value := 100002000
    GlobalDefault := false
    Description := "This priority class should be used for hypershift etcd pods." }

/-- `HyperShiftPrometheusRole` builder configuration. -/
structure HyperShiftPrometheusRole where
  Namespace : Namespace
deriving DecidableEq

/-- `HyperShiftPrometheusRole.Build`. -/
def HyperShiftPrometheusRole.Build (o : HyperShiftPrometheusRole) : Role :=
  { TypeMeta := { Kind := "Role", APIVersion := rbacv1SchemeGroupVersion }
    ObjectMeta := { Namespace := o.Namespace.Name, Name := "prometheus" }
    Rules :=
      [{ APIGroups := [""]
         Resources := ["services", "endpoints", "pods"]
         Verbs := ["get", "list", "watch"] }] }

/-- `HyperShiftServiceMonitor` builder configuration. -/
structure HyperShiftServiceMonitor where
  Namespace : Namespace
deriving DecidableEq

/-- `HyperShiftServiceMonitor.Build`. -/
def HyperShiftServiceMonitor.Build (o : HyperShiftServiceMonitor) : ServiceMonitor :=
  { TypeMeta := { Kind := "ServiceMonitor", APIVersion := prometheusoperatorv1SchemeGroupVersion }
    ObjectMeta := { Namespace := o.Namespace.Name, Name := "operator" }
    Spec :=
      { JobLabel := "component"
        Selector := { MatchLabels := [("name", "operator")] }
        Endpoints := [{ Interval := "30s", Port := "metrics" }] } }

/-- `HypershiftRecordingRule` builder configuration. -/
structure HypershiftRecordingRule where
  Namespace : Namespace
deriving DecidableEq

/-- `HypershiftRecordingRule.Build`: the rule literal, then its Spec assigned
from `recordingRuleSpec()`. -/
def HypershiftRecordingRule.Build (r : HypershiftRecordingRule) : PrometheusRule :=
  let rule : PrometheusRule :=
    { TypeMeta := { Kind := "PrometheusRule", APIVersion := prometheusoperatorv1SchemeGroupVersion }
      ObjectMeta := { Namespace := r.Namespace.Name, Name := "metrics" } }
  { rule with Spec := recordingRuleSpec }

/-- `HyperShiftClientClusterRole` builder configuration (no fields). -/
structure HyperShiftClientClusterRole
deriving DecidableEq

/-- `HyperShiftClientClusterRole.Build`. -/
def HyperShiftClientClusterRole.Build (_o : HyperShiftClientClusterRole) : ClusterRole :=
  { TypeMeta := { Kind := "ClusterRole", APIVersion := rbacv1SchemeGroupVersion }
    ObjectMeta := { Name := "hypershift-client" }
    Rules :=
      [{ APIGroups := ["hypershift.openshift.io"]
         Resources := ["hostedclusters", "nodepools"]
         Verbs := ["*"] }] }

/-- `HyperShiftClientServiceAccount` builder configuration. -/
structure HyperShiftClientServiceAccount where
  Namespace : Namespace
deriving DecidableEq

/-- `HyperShiftClientServiceAccount.Build`. -/
def HyperShiftClientServiceAccount.Build (o : HyperShiftClientServiceAccount) :
    ServiceAccount :=
  { TypeMeta := { Kind := "ServiceAccount", APIVersion := corev1SchemeGroupVersion }
    ObjectMeta := { Namespace := o.Namespace.Name, Name := "hypershift-client" } }

/-- `HyperShiftClientClusterRoleBinding` builder configuration. -/
structure HyperShiftClientClusterRoleBinding where
  ClusterRole : ClusterRole
  ServiceAccount : ServiceAccount
  GroupName : String
deriving DecidableEq

/-- `HyperShiftClientClusterRoleBinding.Build`. -/
def HyperShiftClientClusterRoleBinding.Build (o : HyperShiftClientClusterRoleBinding) :
    ClusterRoleBinding :=
  { TypeMeta := { Kind := "ClusterRoleBinding", APIVersion := rbacv1SchemeGroupVersion }
    ObjectMeta := { Name := "hypershift-client" }
    RoleRef :=
      { APIGroup := "rbac.authorization.k8s.io"
        Kind := "ClusterRole"
        Name := o.ClusterRole.Name }
    Subjects :=
      [{ Kind := "ServiceAccount"
         Name := o.ServiceAccount.Name
         Namespace := o.ServiceAccount.Namespace },
       { Kind := "Group"
         APIGroup := "rbac.authorization.k8s.io"
         Name := o.GroupName }] }

/-- `HyperShiftReaderClusterRole` builder configuration (no fields). -/
structure HyperShiftReaderClusterRole
deriving DecidableEq

/-- `HyperShiftReaderClusterRole.Build`. -/
def HyperShiftReaderClusterRole.Build (_o : HyperShiftReaderClusterRole) : ClusterRole :=
  { TypeMeta := { Kind := "ClusterRole", APIVersion := rbacv1SchemeGroupVersion }
    ObjectMeta := { Name := "hypershift-readers" }
    Rules :=
      [{ APIGroups := ["hypershift.openshift.io"], Resources := ["*"],
         Verbs := ["get", "list", "watch"] },
       { APIGroups := ["config.openshift.io"], Resources := ["*"],
         Verbs := ["get", "list", "watch"] },
       { APIGroups := ["apiextensions.k8s.io"], Resources := ["customresourcedefinitions"],
         Verbs := ["get", "list", "watch"] },
       { APIGroups := ["networking.k8s.io"], Resources := ["networkpolicies"],
         Verbs := ["get", "list", "watch"] },
       { APIGroups :=
           ["bootstrap.cluster.x-k8s.io",
            "controlplane.cluster.x-k8s.io",
            "infrastructure.cluster.x-k8s.io",
            "machines.cluster.x-k8s.io",
            "exp.infrastructure.cluster.x-k8s.io",
            "addons.cluster.x-k8s.io",
            "exp.cluster.x-k8s.io",
            "cluster.x-k8s.io"]
         Resources := ["*"]
         Verbs := ["get", "list", "watch"] },
       { APIGroups := ["operator.openshift.io"], Resources := ["*"],
         Verbs := ["get", "list", "watch"] },
       { APIGroups := ["route.openshift.io"], Resources := ["*"],
         Verbs := ["get", "list", "watch"] },
       { APIGroups := ["security.openshift.io"], Resources := ["securitycontextconstraints"],
         Verbs := ["get", "list", "watch"] },
       { APIGroups := ["rbac.authorization.k8s.io"], Resources := ["*"],
         Verbs := ["get", "list", "watch"] },
       { APIGroups := [""]
         Resources :=
           ["events", "configmaps", "pods", "pods/log", "nodes", "namespaces",
            "serviceaccounts", "services"]
         Verbs := ["get", "list", "watch"] },
       { APIGroups := ["apps"], Resources := ["deployments"],
         Verbs := ["get", "list", "watch"] },
       { APIGroups := ["etcd.database.coreos.com"], Resources := ["*"],
         Verbs := ["get", "list", "watch"] },
       { APIGroups := ["machine.openshift.io"], Resources := ["*"],
         Verbs := ["get", "list", "watch"] },
       { APIGroups := ["monitoring.coreos.com"], Resources := ["podmonitors"],
         Verbs := ["get", "list", "watch"] },
       { APIGroups := ["capi-provider.agent-install.openshift.io"], Resources := ["*"],
         Verbs := ["get", "list", "watch"] }] }

/-- `HyperShiftReaderClusterRoleBinding` builder configuration. -/
structure HyperShiftReaderClusterRoleBinding where
  ClusterRole : ClusterRole
  GroupName : String
deriving DecidableEq

/-- `HyperShiftReaderClusterRoleBinding.Build`. -/
def HyperShiftReaderClusterRoleBinding.Build (o : HyperShiftReaderClusterRoleBinding) :
    ClusterRoleBinding :=
  { TypeMeta := { Kind := "ClusterRoleBinding", APIVersion := rbacv1SchemeGroupVersion }
    ObjectMeta := { Name := "hypershift-readers" }
    RoleRef :=
      { APIGroup := "rbac.authorization.k8s.io"
        Kind := "ClusterRole"
        Name := o.ClusterRole.Name }
    Subjects :=
      [{ Kind := "Group"
         APIGroup := "rbac.authorization.k8s.io"
         Name := o.GroupName }] }

/-! Statement-level state-passing translations of the Build methods.

Each `BuildST` maps the configuration (the receiver together with every
object it references, held by value in the configuration record) to the pair
(configuration after the call, returned object), translating the Go body
statement by statement: the construction of the literal, then each
assignment, which updates only the freshly built object. For the bodies that
consist of a single literal construction and a return, that translation is
`(o, o.Build)` where `o.Build` is exactly that literal. -/

/-- State-passing `HyperShiftNamespace.Build`: construct the namespace, then
the conditional `namespace.Labels = ...` assignment, then return. -/
def HyperShiftNamespace.BuildST (o : HyperShiftNamespace) :
    HyperShiftNamespace × Namespace :=
  let s : HyperShiftNamespace × Namespace :=
    (o, { TypeMeta := { Kind := "Namespace", APIVersion := corev1SchemeGroupVersion }
          ObjectMeta := { Name := o.Name } })
  if o.EnableOCPClusterMonitoring then
    (s.1, { s.2 with ObjectMeta := { s.2.ObjectMeta with
        Labels := [("openshift.io/cluster-monitoring", "true")] } })
  else s

/-- State-passing `HyperShiftOperatorCredentialsSecret.Build` (single literal
construction and return). -/
def HyperShiftOperatorCredentialsSecret.BuildST (o : HyperShiftOperatorCredentialsSecret) :
    HyperShiftOperatorCredentialsSecret × Secret :=
  (o, o.Build)

/-- State-passing `HyperShiftOperatorOIDCProviderS3Secret.Build` (single
literal construction and return). -/
def HyperShiftOperatorOIDCProviderS3Secret.BuildST
    (o : HyperShiftOperatorOIDCProviderS3Secret) :
    HyperShiftOperatorOIDCProviderS3Secret × Secret :=
  (o, o.Build)

/-- State-passing `ExternalDNSCredsSecret.Build` (single literal construction
and return). -/
def ExternalDNSCredsSecret.BuildST (o : ExternalDNSCredsSecret) :
    ExternalDNSCredsSecret × Secret :=
  (o, o.Build)

/-- State-passing `ExternalDNSDeployment.Build`: construct the deployment
literal, then the two appending assignments of the "aws" switch case, then
return. -/
def ExternalDNSDeployment.BuildST (o : ExternalDNSDeployment) :
    ExternalDNSDeployment × Deployment :=
  let s : ExternalDNSDeployment × Deployment :=
    (o,
     { TypeMeta := { Kind := "Deployment", APIVersion := appsv1SchemeGroupVersion }
       ObjectMeta := { Name := "external-dns", Namespace := o.Namespace.Name }
       Spec :=
         { Selector := { MatchLabels := [("name", "external-dns")] }
           Replicas := 1
           Template :=
             { ObjectMeta := { Labels :=
                 [("name", "external-dns"), ("app", "external-dns"),
                  (OperatorComponent, "external-dns")] }
               Spec :=
                 { ServiceAccountName := o.ServiceAccount.Name
                   Containers :=
                     [{ Name := "external-dns"
                        Image := o.Image
                        ImagePullPolicy := "IfNotPresent"
                        Command := ["/external-dns"]
                        Args :=
                          ["--source=service",
                           "--source=openshift-route",
                           "--domain-filter=" ++ o.DomainFilter,
                           "--provider=" ++ o.Provider,
                           "--registry=noop",
                           "--txt-owner-id=hypershift"]
                        Ports := [{ Name := "metrics", ContainerPort := 7979 }]
                        LivenessProbe := some
                          { ProbeHandler :=
                              { HTTPGet := some
                                  { Path := "/healthz", Port := .ofInt 7979, Scheme := "HTTP" } }
                            InitialDelaySeconds := 60
                            PeriodSeconds := 60
                            SuccessThreshold := 1
                            FailureThreshold := 5
                            TimeoutSeconds := 5 }
                        Resources := { Requests := [("memory", "20Mi"), ("cpu", "5m")] }
                        VolumeMounts :=
                          [{ Name := "credentials", MountPath := "/etc/provider" }] }]
                   Volumes :=
                     [{ Name := "credentials"
                        VolumeSource :=
                          { Secret := some
                              { SecretName := o.CredentialsSecret.Name } } }] } } } })
  if o.Provider == "aws" then
    let s := (s.1, s.2.appendEnv0
      [{ Name := "AWS_SHARED_CREDENTIALS_FILE", Value := "/etc/provider/credentials" },
       { Name := "AWS_REGION", Value := "us-east-1" }])
    let s := (s.1, s.2.appendArgs0 ["--aws-zone-type=public"])
    s
  else s

/-- State-passing `HyperShiftOperatorDeployment.Build`: the arg/volume/env
assembly, the deployment literal, then each appending assignment of the
non-"none" and "aws" blocks, then return. -/
def HyperShiftOperatorDeployment.BuildST (o : HyperShiftOperatorDeployment) :
    HyperShiftOperatorDeployment × Deployment :=
  let args : List String :=
    if o.oidcEnabled then
      o.baseArgs ++
        ["--oidc-storage-provider-s3-bucket-name=" ++ o.OIDCBucketName,
         "--oidc-storage-provider-s3-region=" ++ o.OIDCBucketRegion,
         "--oidc-storage-provider-s3-credentials=/etc/oidc-storage-provider-s3-creds/" ++
           o.OIDCStorageProviderS3SecretKey]
    else o.baseArgs
  let oidcVolumeMount : List VolumeMount :=
    if o.oidcEnabled then
      [{ Name := "oidc-storage-provider-s3-creds"
         MountPath := "/etc/oidc-storage-provider-s3-creds" }]
    else []
  let oidcVolumeCred : List Volume :=
    if o.oidcEnabled then
      [{ Name := "oidc-storage-provider-s3-creds"
         VolumeSource := { Secret := some { SecretName := o.oidcSecretName } } }]
    else []
  let envVars : List EnvVar :=
    [{ Name := "MY_NAMESPACE"
       ValueFrom := some { FieldRef := some { FieldPath := "metadata.namespace" } } }]
  let s : HyperShiftOperatorDeployment × Deployment :=
    (o,
     { TypeMeta := { Kind := "Deployment", APIVersion := appsv1SchemeGroupVersion }
       ObjectMeta := { Name := "operator", Namespace := o.Namespace.Name }
       Spec :=
         { Replicas := o.Replicas
           Selector := { MatchLabels := [("name", "operator")] }
           Template :=
             { ObjectMeta := { Labels :=
                 [("name", "operator"), (OperatorComponent, "operator"),
                  ("app", "operator")] }
               Spec :=
                 { ServiceAccountName := o.ServiceAccount.Name
                   Containers :=
                     [{ Name := "operator"
                        SecurityContext := some { RunAsUser := some 1000 }
                        Image := o.OperatorImage
                        ImagePullPolicy := "Always"
                        Env := envVars
                        Command := ["/usr/bin/hypershift-operator"]
                        Args := args
                        LivenessProbe := some
                          { ProbeHandler :=
                              { HTTPGet := some
                                  { Path := "/metrics", Port := .ofInt 9000, Scheme := "HTTP" } }
                            InitialDelaySeconds := 60
                            PeriodSeconds := 60
                            SuccessThreshold := 1
                            FailureThreshold := 5
                            TimeoutSeconds := 5 }
                        ReadinessProbe := some
                          { ProbeHandler :=
                              { HTTPGet := some
                                  { Path := "/metrics", Port := .ofInt 9000, Scheme := "HTTP" } }
                            InitialDelaySeconds := 15
                            PeriodSeconds := 60
                            SuccessThreshold := 1
                            FailureThreshold := 3
                            TimeoutSeconds := 5 }
                        Ports := [{ Name := "metrics", ContainerPort := 9000, Protocol := "TCP" }]
                        Resources := { Requests := [("memory", "150Mi"), ("cpu", "10m")] }
                        VolumeMounts := oidcVolumeMount }]
                   Volumes := oidcVolumeCred } } } })
  if (o.PrivatePlatform : PlatformType) == NonePlatform then s
  else
    let s := (s.1, s.2.appendVolumes
      [{ Name := "credentials"
         VolumeSource := { Secret := some { SecretName := awsCredsSecretName } } }])
    let s := (s.1, s.2.appendVolumeMounts0
      [{ Name := "credentials", MountPath := "/etc/provider" }])
    if (o.PrivatePlatform : PlatformType) == AWSPlatform then
      let s := (s.1, s.2.appendEnv0
        [{ Name := "AWS_SHARED_CREDENTIALS_FILE", Value := "/etc/provider/credentials" },
         { Name := "AWS_REGION", Value := o.AWSPrivateRegion }])
      let s := (s.1, s.2.appendVolumeMounts0
        [{ Name := "token", MountPath := "/var/run/secrets/openshift/serviceaccount" }])
      let s := (s.1, s.2.appendVolumes
        [{ Name := "token"
           VolumeSource := { Projected := some { Sources :=
             [{ ServiceAccountToken := some { Audience := "openshift", Path := "token" } }] } } }])
      s
    else s

/-- State-passing `HyperShiftOperatorService.Build` (single literal
construction and return). -/
def HyperShiftOperatorService.BuildST (o : HyperShiftOperatorService) :
    HyperShiftOperatorService × Service :=
  (o, o.Build)

/-- State-passing `ExternalDNSServiceAccount.Build` (single literal
construction and return). -/
def ExternalDNSServiceAccount.BuildST (o : ExternalDNSServiceAccount) :
    ExternalDNSServiceAccount × ServiceAccount :=
  (o, o.Build)

/-- State-passing `ExternalDNSClusterRole.Build` (single literal construction
and return). -/
def ExternalDNSClusterRole.BuildST (o : ExternalDNSClusterRole) :
    ExternalDNSClusterRole × ClusterRole :=
  (o, o.Build)

/-- State-passing `ExternalDNSClusterRoleBinding.Build` (single literal
construction and return). -/
def ExternalDNSClusterRoleBinding.BuildST (o : ExternalDNSClusterRoleBinding) :
    ExternalDNSClusterRoleBinding × ClusterRoleBinding :=
  (o, o.Build)

/-- State-passing `HyperShiftOperatorServiceAccount.Build` (single literal
construction and return). -/
def HyperShiftOperatorServiceAccount.BuildST (o : HyperShiftOperatorServiceAccount) :
    HyperShiftOperatorServiceAccount × ServiceAccount :=
  (o, o.Build)

/-- State-passing `HyperShiftOperatorClusterRole.Build` (single literal
construction and return). -/
def HyperShiftOperatorClusterRole.BuildST (o : HyperShiftOperatorClusterRole) :
    HyperShiftOperatorClusterRole × ClusterRole :=
  (o, o.Build)

/-- State-passing `HyperShiftOperatorClusterRoleBinding.Build` (single
literal construction and return). -/
def HyperShiftOperatorClusterRoleBinding.BuildST (o : HyperShiftOperatorClusterRoleBinding) :
    HyperShiftOperatorClusterRoleBinding × ClusterRoleBinding :=
  (o, o.Build)

/-- State-passing `HyperShiftOperatorRole.Build` (single literal construction
and return). -/
def HyperShiftOperatorRole.BuildST (o : HyperShiftOperatorRole) :
    HyperShiftOperatorRole × Role :=
  (o, o.Build)

/-- State-passing `HyperShiftOperatorRoleBinding.Build` (single literal
construction and return). -/
def HyperShiftOperatorRoleBinding.BuildST (o : HyperShiftOperatorRoleBinding) :
    HyperShiftOperatorRoleBinding × RoleBinding :=
  (o, o.Build)

/-- State-passing `HyperShiftControlPlanePriorityClass.Build` (single literal
construction and return). -/
def HyperShiftControlPlanePriorityClass.BuildST (o : HyperShiftControlPlanePriorityClass) :
    HyperShiftControlPlanePriorityClass × PriorityClass :=
  (o, o.Build)

/-- State-passing `HyperShiftAPICriticalPriorityClass.Build` (single literal
construction and return). -/
def HyperShiftAPICriticalPriorityClass.BuildST (o : HyperShiftAPICriticalPriorityClass) :
    HyperShiftAPICriticalPriorityClass × PriorityClass :=
  (o, o.Build)

/-- State-passing `HyperShiftEtcdPriorityClass.Build` (single literal
construction and return). -/
def HyperShiftEtcdPriorityClass.BuildST (o : HyperShiftEtcdPriorityClass) :
    HyperShiftEtcdPriorityClass × PriorityClass :=
  (o, o.Build)

/-- State-passing `HyperShiftPrometheusRole.Build` (single literal
construction and return). -/
def HyperShiftPrometheusRole.BuildST (o : HyperShiftPrometheusRole) :
    HyperShiftPrometheusRole × Role :=
  (o, o.Build)

/-- State-passing `HyperShiftOperatorPrometheusRoleBinding.Build`: the
subject value assembly and conditional overwrite touch locals only, then a
single literal construction and return. -/
def HyperShiftOperatorPrometheusRoleBinding.BuildST
    (o : HyperShiftOperatorPrometheusRoleBinding) :
    HyperShiftOperatorPrometheusRoleBinding × RoleBinding :=
  (o, o.Build)

/-- State-passing `HyperShiftServiceMonitor.Build` (single literal
construction and return). -/
def HyperShiftServiceMonitor.BuildST (o : HyperShiftServiceMonitor) :
    HyperShiftServiceMonitor × ServiceMonitor :=
  (o, o.Build)

/-- State-passing `HypershiftRecordingRule.Build`: construct the rule
literal, then the `rule.Spec = recordingRuleSpec()` assignment, then
return. -/
def HypershiftRecordingRule.BuildST (r : HypershiftRecordingRule) :
    HypershiftRecordingRule × PrometheusRule :=
  let s : HypershiftRecordingRule × PrometheusRule :=
    (r, { TypeMeta := { Kind := "PrometheusRule"
                        APIVersion := prometheusoperatorv1SchemeGroupVersion }
          ObjectMeta := { Namespace := r.Namespace.Name, Name := "metrics" } })
  let s := (s.1, { s.2 with Spec := recordingRuleSpec })
  s

/-- State-passing `HyperShiftClientClusterRole.Build` (single literal
construction and return). -/
def HyperShiftClientClusterRole.BuildST (o : HyperShiftClientClusterRole) :
    HyperShiftClientClusterRole × ClusterRole :=
  (o, o.Build)

/-- State-passing `HyperShiftClientServiceAccount.Build` (single literal
construction and return). -/
def HyperShiftClientServiceAccount.BuildST (o : HyperShiftClientServiceAccount) :
    HyperShiftClientServiceAccount × ServiceAccount :=
  (o, o.Build)

/-- State-passing `HyperShiftClientClusterRoleBinding.Build` (single literal
construction and return). -/
def HyperShiftClientClusterRoleBinding.BuildST (o : HyperShiftClientClusterRoleBinding) :
    HyperShiftClientClusterRoleBinding × ClusterRoleBinding :=
  (o, o.Build)

/-- State-passing `HyperShiftReaderClusterRole.Build` (single literal
construction and return). -/
def HyperShiftReaderClusterRole.BuildST (o : HyperShiftReaderClusterRole) :
    HyperShiftReaderClusterRole × ClusterRole :=
  (o, o.Build)

/-- State-passing `HyperShiftReaderClusterRoleBinding.Build` (single literal
construction and return). -/
def HyperShiftReaderClusterRoleBinding.BuildST (o : HyperShiftReaderClusterRoleBinding) :
    HyperShiftReaderClusterRoleBinding × ClusterRoleBinding :=
  (o, o.Build)

/-! `cmd/infra/destroy.go`: the cobra command shim. -/

/-- `cobra.Command`: the fields the source sets, plus the registered
subcommands (`AddCommand` appends to them). -/
inductive CobraCommand where
  | mk (Use Short : String) (SilenceUsage : Bool) (Flags : List String)
      (Commands : List CobraCommand)

/-- The `Use` field of a cobra command. -/
def CobraCommand.Use : CobraCommand → String
  | .mk u _ _ _ _ => u

/-- The `Short` field of a cobra command. -/
def CobraCommand.Short : CobraCommand → String
  | .mk _ s _ _ _ => s

/-- The `SilenceUsage` field of a cobra command. -/
def CobraCommand.SilenceUsage : CobraCommand → Bool
  | .mk _ _ b _ _ => b

/-- The flags a cobra command defines of its own. -/
def CobraCommand.Flags : CobraCommand → List String
  | .mk _ _ _ f _ => f

/-- The registered subcommands of a cobra command. -/
def CobraCommand.Commands : CobraCommand → List CobraCommand
  | .mk _ _ _ _ cs => cs

/-- `cobra.Command.AddCommand`: registers a child subcommand. -/
def CobraCommand.AddCommand : CobraCommand → CobraCommand → CobraCommand
  | .mk u s b f cs, sub => .mk u s b f (cs ++ [sub])

/-- `infra.NewDestroyCommand`: builds the `infra` command and registers the
AWS and Azure destroy commands, which live in external packages and are
therefore parameters here. -/
def NewDestroyCommand (awsDestroyCommand azureDestroyCommand : CobraCommand) : CobraCommand :=
  let cmd : CobraCommand :=
    .mk "infra" "Commands for destroying HyperShift infra resources" true [] []
  let cmd := cmd.AddCommand awsDestroyCommand
  let cmd := cmd.AddCommand azureDestroyCommand
  cmd

/-! Sample configurations used to instantiate universally quantified
theorems at concrete inputs. -/

/-- A sample namespace. -/
def sampleNamespace : Namespace := { ObjectMeta := { Name := "hypershift" } }

/-- A sample service account. -/
def sampleServiceAccount : ServiceAccount :=
  { ObjectMeta := { Name := "operator", Namespace := "hypershift" } }

/-- A sample cluster role. -/
def sampleClusterRole : ClusterRole := { ObjectMeta := { Name := "hypershift-operator" } }

/-- A sample role. -/
def sampleRole : Role := { ObjectMeta := { Name := "hypershift-operator" } }

/-- A sample secret. -/
def sampleSecret : Secret :=
  { ObjectMeta := { Name := "my-creds", Namespace := "hypershift" } }

/-- A sample operator deployment configuration on the AWS private platform. -/
def sampleOperatorDeploymentAWS : HyperShiftOperatorDeployment :=
  { Namespace := sampleNamespace
    OperatorImage := "quay.io/hypershift/hypershift-operator:latest"
    ServiceAccount := sampleServiceAccount
    Replicas := 1
    EnableOCPClusterMonitoring := false
    EnableCIDebugOutput := false
    PrivatePlatform := AWSPlatform
    AWSPrivateCreds := "/creds"
    AWSPrivateRegion := "us-west-2"
    OIDCBucketName := ""
    OIDCBucketRegion := ""
    OIDCStorageProviderS3Secret := none
    OIDCStorageProviderS3SecretKey := "" }

/-- A sample operator deployment configuration on the "none" private platform,
with the OIDC fields all set. -/
def sampleOperatorDeploymentNone : HyperShiftOperatorDeployment :=
  { Namespace := sampleNamespace
    OperatorImage := "quay.io/hypershift/hypershift-operator:latest"
    ServiceAccount := sampleServiceAccount
    Replicas := 1
    EnableOCPClusterMonitoring := true
    EnableCIDebugOutput := false
    PrivatePlatform := NonePlatform
    AWSPrivateCreds := ""
    AWSPrivateRegion := ""
    OIDCBucketName := "bucket"
    OIDCBucketRegion := "us-east-1"
    OIDCStorageProviderS3Secret := some sampleSecret
    OIDCStorageProviderS3SecretKey := "credentials" }

/-- A sample external-dns deployment configuration whose credentials secret is
the one built by `ExternalDNSCredsSecret.Build`. -/
def sampleExternalDNSDeployment : ExternalDNSDeployment :=
  { Namespace := sampleNamespace
    Image := "registry.example.com/external-dns:latest"
    ServiceAccount := { ObjectMeta := { Name := "external-dns", Namespace := "hypershift" } }
    Provider := "aws"
    DomainFilter := "example.com"
    CredentialsSecret :=
      ExternalDNSCredsSecret.Build { Namespace := sampleNamespace, CredsBytes := [65, 66] } }

end HyperShiftAssets

namespace HyperShiftAssets

/-- C5: the RoleBinding built by `HyperShiftOperatorPrometheusRoleBinding.Build`
has exactly one subject, of kind ServiceAccount: `prometheus-k8s` in
`openshift-monitoring` when `EnableOCPClusterMonitoring` is true, and
`prometheus-user-workload` in `openshift-user-workload-monitoring` when it is
false. -/
theorem prometheusRoleBinding_subject (o : HyperShiftOperatorPrometheusRoleBinding) :
    o.Build.Subjects =
      [if o.EnableOCPClusterMonitoring then
        { Kind := "ServiceAccount", Name := "prometheus-k8s",
          Namespace := "openshift-monitoring" }
       else
        { Kind := "ServiceAccount", Name := "prometheus-user-workload",
          Namespace := "openshift-user-workload-monitoring" }] := by
  cases h : o.EnableOCPClusterMonitoring <;>
    simp [HyperShiftOperatorPrometheusRoleBinding.Build, h]

/-- C6: each of the three bindings built from a ServiceAccount
(`ExternalDNSClusterRoleBinding`, `HyperShiftOperatorClusterRoleBinding`,
`HyperShiftOperatorRoleBinding`) has a subject of kind ServiceAccount whose
Name and Namespace are those of the supplied ServiceAccount, and a RoleRef
whose Name is the supplied role's Name. -/
theorem bindings_reference_serviceAccount
    (a : ExternalDNSClusterRoleBinding) (b : HyperShiftOperatorClusterRoleBinding)
    (c : HyperShiftOperatorRoleBinding) :
    (∃ s ∈ a.Build.Subjects, s.Kind = "ServiceAccount" ∧
      s.Name = a.ServiceAccount.Name ∧ s.Namespace = a.ServiceAccount.Namespace) ∧
    a.Build.RoleRef.Name = a.ClusterRole.Name ∧
    (∃ s ∈ b.Build.Subjects, s.Kind = "ServiceAccount" ∧
      s.Name = b.ServiceAccount.Name ∧ s.Namespace = b.ServiceAccount.Namespace) ∧
    b.Build.RoleRef.Name = b.ClusterRole.Name ∧
    (∃ s ∈ c.Build.Subjects, s.Kind = "ServiceAccount" ∧
      s.Name = c.ServiceAccount.Name ∧ s.Namespace = c.ServiceAccount.Namespace) ∧
    c.Build.RoleRef.Name = c.Role.Name := by
  simp [ExternalDNSClusterRoleBinding.Build, HyperShiftOperatorClusterRoleBinding.Build,
    HyperShiftOperatorRoleBinding.Build]

/-- The statement-level state-passing translation of `HyperShiftNamespace.Build`
returns the configuration unchanged together with the pure build. -/
theorem hyperShiftNamespace_buildST (o : HyperShiftNamespace) :
    o.BuildST = (o, o.Build) := by
  simp only [HyperShiftNamespace.BuildST, HyperShiftNamespace.Build]
  split_ifs <;> rfl

/-- The statement-level state-passing translation of `ExternalDNSDeployment.Build`
returns the configuration unchanged together with the pure build. -/
theorem externalDNSDeployment_buildST (o : ExternalDNSDeployment) :
    o.BuildST = (o, o.Build) := by
  simp only [ExternalDNSDeployment.BuildST, ExternalDNSDeployment.Build]
  split_ifs <;> rfl

/-- The statement-level state-passing translation of
`HyperShiftOperatorDeployment.Build` returns the configuration unchanged
together with the pure build. -/
theorem operatorDeployment_buildST (o : HyperShiftOperatorDeployment) :
    o.BuildST = (o, o.Build) := by
  simp only [HyperShiftOperatorDeployment.BuildST, HyperShiftOperatorDeployment.Build]
  split_ifs <;> rfl

/-- The statement-level state-passing translation of
`HypershiftRecordingRule.Build` returns the configuration unchanged together
with the pure build. -/
theorem recordingRule_buildST (r : HypershiftRecordingRule) :
    r.BuildST = (r, r.Build) := rfl

/-- C7: every one of the 27 Build methods of the source file is deterministic
and side-effect-free: equal configurations yield equal object graphs, and the
statement-level state-passing translation of each method (which threads the
configuration, the receiver and every object it references, through every Go
statement) returns the configuration unchanged together with the pure
result. -/
theorem build_deterministic :
    ((∀ o o' : HyperShiftNamespace, o = o' → o.Build = o'.Build) ∧
      (∀ o : HyperShiftNamespace, o.BuildST = (o, o.Build))) ∧
    ((∀ o o' : HyperShiftOperatorCredentialsSecret, o = o' → o.Build = o'.Build) ∧
      (∀ o : HyperShiftOperatorCredentialsSecret, o.BuildST = (o, o.Build))) ∧
    ((∀ o o' : HyperShiftOperatorOIDCProviderS3Secret, o = o' → o.Build = o'.Build) ∧
      (∀ o : HyperShiftOperatorOIDCProviderS3Secret, o.BuildST = (o, o.Build))) ∧
    ((∀ o o' : ExternalDNSCredsSecret, o = o' → o.Build = o'.Build) ∧
      (∀ o : ExternalDNSCredsSecret, o.BuildST = (o, o.Build))) ∧
    ((∀ o o' : ExternalDNSDeployment, o = o' → o.Build = o'.Build) ∧
      (∀ o : ExternalDNSDeployment, o.BuildST = (o, o.Build))) ∧
    ((∀ o o' : HyperShiftOperatorDeployment, o = o' → o.Build = o'.Build) ∧
      (∀ o : HyperShiftOperatorDeployment, o.BuildST = (o, o.Build))) ∧
    ((∀ o o' : HyperShiftOperatorService, o = o' → o.Build = o'.Build) ∧
      (∀ o : HyperShiftOperatorService, o.BuildST = (o, o.Build))) ∧
    ((∀ o o' : ExternalDNSServiceAccount, o = o' → o.Build = o'.Build) ∧
      (∀ o : ExternalDNSServiceAccount, o.BuildST = (o, o.Build))) ∧
    ((∀ o o' : ExternalDNSClusterRole, o = o' → o.Build = o'.Build) ∧
      (∀ o : ExternalDNSClusterRole, o.BuildST = (o, o.Build))) ∧
    ((∀ o o' : ExternalDNSClusterRoleBinding, o = o' → o.Build = o'.Build) ∧
      (∀ o : ExternalDNSClusterRoleBinding, o.BuildST = (o, o.Build))) ∧
    ((∀ o o' : HyperShiftOperatorServiceAccount, o = o' → o.Build = o'.Build) ∧
      (∀ o : HyperShiftOperatorServiceAccount, o.BuildST = (o, o.Build))) ∧
    ((∀ o o' : HyperShiftOperatorClusterRole, o = o' → o.Build = o'.Build) ∧
      (∀ o : HyperShiftOperatorClusterRole, o.BuildST = (o, o.Build))) ∧
    ((∀ o o' : HyperShiftOperatorClusterRoleBinding, o = o' → o.Build = o'.Build) ∧
      (∀ o : HyperShiftOperatorClusterRoleBinding, o.BuildST = (o, o.Build))) ∧
    ((∀ o o' : HyperShiftOperatorRole, o = o' → o.Build = o'.Build) ∧
      (∀ o : HyperShiftOperatorRole, o.BuildST = (o, o.Build))) ∧
    ((∀ o o' : HyperShiftOperatorRoleBinding, o = o' → o.Build = o'.Build) ∧
      (∀ o : HyperShiftOperatorRoleBinding, o.BuildST = (o, o.Build))) ∧
    ((∀ o o' : HyperShiftControlPlanePriorityClass, o = o' → o.Build = o'.Build) ∧
      (∀ o : HyperShiftControlPlanePriorityClass, o.BuildST = (o, o.Build))) ∧
    ((∀ o o' : HyperShiftAPICriticalPriorityClass, o = o' → o.Build = o'.Build) ∧
      (∀ o : HyperShiftAPICriticalPriorityClass, o.BuildST = (o, o.Build))) ∧
    ((∀ o o' : HyperShiftEtcdPriorityClass, o = o' → o.Build = o'.Build) ∧
      (∀ o : HyperShiftEtcdPriorityClass, o.BuildST = (o, o.Build))) ∧
    ((∀ o o' : HyperShiftPrometheusRole, o = o' → o.Build = o'.Build) ∧
      (∀ o : HyperShiftPrometheusRole, o.BuildST = (o, o.Build))) ∧
    ((∀ o o' : HyperShiftOperatorPrometheusRoleBinding, o = o' → o.Build = o'.Build) ∧
      (∀ o : HyperShiftOperatorPrometheusRoleBinding, o.BuildST = (o, o.Build))) ∧
    ((∀ o o' : HyperShiftServiceMonitor, o = o' → o.Build = o'.Build) ∧
      (∀ o : HyperShiftServiceMonitor, o.BuildST = (o, o.Build))) ∧
    ((∀ r r' : HypershiftRecordingRule, r = r' → r.Build = r'.Build) ∧
      (∀ r : HypershiftRecordingRule, r.BuildST = (r, r.Build))) ∧
    ((∀ o o' : HyperShiftClientClusterRole, o = o' → o.Build = o'.Build) ∧
      (∀ o : HyperShiftClientClusterRole, o.BuildST = (o, o.Build))) ∧
    ((∀ o o' : HyperShiftClientServiceAccount, o = o' → o.Build = o'.Build) ∧
      (∀ o : HyperShiftClientServiceAccount, o.BuildST = (o, o.Build))) ∧
    ((∀ o o' : HyperShiftClientClusterRoleBinding, o = o' → o.Build = o'.Build) ∧
      (∀ o : HyperShiftClientClusterRoleBinding, o.BuildST = (o, o.Build))) ∧
    ((∀ o o' : HyperShiftReaderClusterRole, o = o' → o.Build = o'.Build) ∧
      (∀ o : HyperShiftReaderClusterRole, o.BuildST = (o, o.Build))) ∧
    ((∀ o o' : HyperShiftReaderClusterRoleBinding, o = o' → o.Build = o'.Build) ∧
      (∀ o : HyperShiftReaderClusterRoleBinding, o.BuildST = (o, o.Build))) :=
  ⟨⟨fun _ _ h => by rw [h], hyperShiftNamespace_buildST⟩,
   ⟨fun _ _ h => by rw [h], fun _ => rfl⟩,
   ⟨fun _ _ h => by rw [h], fun _ => rfl⟩,
   ⟨fun _ _ h => by rw [h], fun _ => rfl⟩,
   ⟨fun _ _ h => by rw [h], externalDNSDeployment_buildST⟩,
   ⟨fun _ _ h => by rw [h], operatorDeployment_buildST⟩,
   ⟨fun _ _ h => by rw [h], fun _ => rfl⟩,
   ⟨fun _ _ h => by rw [h], fun _ => rfl⟩,
   ⟨fun _ _ h => by rw [h], fun _ => rfl⟩,
   ⟨fun _ _ h => by rw [h], fun _ => rfl⟩,
   ⟨fun _ _ h => by rw [h], fun _ => rfl⟩,
   ⟨fun _ _ h => by rw [h], fun _ => rfl⟩,
   ⟨fun _ _ h => by rw [h], fun _ => rfl⟩,
   ⟨fun _ _ h => by rw [h], fun _ => rfl⟩,
   ⟨fun _ _ h => by rw [h], fun _ => rfl⟩,
   ⟨fun _ _ h => by rw [h], fun _ => rfl⟩,
   ⟨fun _ _ h => by rw [h], fun _ => rfl⟩,
   ⟨fun _ _ h => by rw [h], fun _ => rfl⟩,
   ⟨fun _ _ h => by rw [h], fun _ => rfl⟩,
   ⟨fun _ _ h => by rw [h], fun _ => rfl⟩,
   ⟨fun _ _ h => by rw [h], fun _ => rfl⟩,
   ⟨fun _ _ h => by rw [h], recordingRule_buildST⟩,
   ⟨fun _ _ h => by rw [h], fun _ => rfl⟩,
   ⟨fun _ _ h => by rw [h], fun _ => rfl⟩,
   ⟨fun _ _ h => by rw [h], fun _ => rfl⟩,
   ⟨fun _ _ h => by rw [h], fun _ => rfl⟩,
   ⟨fun _ _ h => by rw [h], fun _ => rfl⟩⟩

/-- Witness for C7: the determinism components applied to the two sample
deployment configurations, and the state-passing component at one of them. -/
theorem build_deterministic_witness :
    ExternalDNSDeployment.Build sampleExternalDNSDeployment =
      ExternalDNSDeployment.Build sampleExternalDNSDeployment ∧
    HyperShiftOperatorDeployment.Build sampleOperatorDeploymentAWS =
      HyperShiftOperatorDeployment.Build sampleOperatorDeploymentAWS ∧
    HyperShiftOperatorDeployment.BuildST sampleOperatorDeploymentAWS =
      (sampleOperatorDeploymentAWS,
       HyperShiftOperatorDeployment.Build sampleOperatorDeploymentAWS) :=
  ⟨build_deterministic.2.2.2.2.1.1 _ _ rfl,
   build_deterministic.2.2.2.2.2.1.1 _ _ rfl,
   build_deterministic.2.2.2.2.2.1.2 sampleOperatorDeploymentAWS⟩

/-- C1: when the private platform is the AWS platform, the operator container
of the deployment built by `HyperShiftOperatorDeployment.Build` has an
environment variable named AWS_REGION whose value is the configured
`AWSPrivateRegion`. -/
theorem operatorDeployment_aws_region (o : HyperShiftOperatorDeployment)
    (h : o.PrivatePlatform = AWSPlatform) :
    ∃ c ∈ o.Build.containers, ∃ e ∈ c.Env,
      e.Name = "AWS_REGION" ∧ e.Value = o.AWSPrivateRegion := by
  simp [HyperShiftOperatorDeployment.Build, Deployment.containers, Deployment.appendVolumes,
    Deployment.appendEnv0, Deployment.appendVolumeMounts0, Deployment.updateContainer0,
    h, AWSPlatform, NonePlatform]

/-- Witness for C1: the AWS_REGION variable at the sample AWS configuration. -/
theorem operatorDeployment_aws_region_witness :
    ∃ c ∈ (HyperShiftOperatorDeployment.Build sampleOperatorDeploymentAWS).containers,
      ∃ e ∈ c.Env, e.Name = "AWS_REGION" ∧
        e.Value = sampleOperatorDeploymentAWS.AWSPrivateRegion :=
  operatorDeployment_aws_region sampleOperatorDeploymentAWS rfl

/-- C3: the deployment built by `HyperShiftOperatorDeployment.Build` has the
provider-credentials volume and its volume mount exactly when the private
platform is not the "none" platform; in that case the volume is named
"credentials", references the secret `hypershift-operator-aws-credentials`,
and the matching mount is at /etc/provider on the operator container. -/
theorem operatorDeployment_credentials_wiring (o : HyperShiftOperatorDeployment) :
    o.Build.hasVolumeNamed "credentials" = !((o.PrivatePlatform : PlatformType) == NonePlatform) ∧
    o.Build.hasMountNamed "credentials" = !((o.PrivatePlatform : PlatformType) == NonePlatform) ∧
    ((o.PrivatePlatform : PlatformType) ≠ NonePlatform →
      ({ Name := "credentials"
         VolumeSource := { Secret := some { SecretName := awsCredsSecretName } } } : Volume)
        ∈ o.Build.podVolumes ∧
      ∃ c ∈ o.Build.containers,
        ({ Name := "credentials", MountPath := "/etc/provider" } : VolumeMount)
          ∈ c.VolumeMounts) := by
  by_cases hn : o.PrivatePlatform = NonePlatform
  · cases ho : o.oidcEnabled <;>
      simp [HyperShiftOperatorDeployment.Build, Deployment.hasVolumeNamed,
        Deployment.hasMountNamed, Deployment.podVolumes, Deployment.containers,
        Deployment.appendVolumes, Deployment.appendEnv0, Deployment.appendVolumeMounts0,
        Deployment.updateContainer0, hn, ho, NonePlatform, AWSPlatform]
  · have hn' : (o.PrivatePlatform == "none") = false := beq_eq_false_iff_ne.mpr hn
    by_cases ha : o.PrivatePlatform = AWSPlatform
    · cases ho : o.oidcEnabled <;>
        simp [HyperShiftOperatorDeployment.Build, Deployment.hasVolumeNamed,
          Deployment.hasMountNamed, Deployment.podVolumes, Deployment.containers,
          Deployment.appendVolumes, Deployment.appendEnv0, Deployment.appendVolumeMounts0,
          Deployment.updateContainer0, hn', ha, ho, NonePlatform, AWSPlatform]
    · have ha' : (o.PrivatePlatform == "aws") = false := beq_eq_false_iff_ne.mpr ha
      cases ho : o.oidcEnabled <;>
        simp [HyperShiftOperatorDeployment.Build, Deployment.hasVolumeNamed,
          Deployment.hasMountNamed, Deployment.podVolumes, Deployment.containers,
          Deployment.appendVolumes, Deployment.appendEnv0, Deployment.appendVolumeMounts0,
          Deployment.updateContainer0, hn', ha', ho, NonePlatform, AWSPlatform]

/-- Witness for C3: the credentials volume and mount at the sample AWS
configuration, whose platform is not "none". -/
theorem operatorDeployment_credentials_wiring_witness :
    (HyperShiftOperatorDeployment.Build sampleOperatorDeploymentAWS).hasVolumeNamed
        "credentials" =
      !((sampleOperatorDeploymentAWS.PrivatePlatform : PlatformType) == NonePlatform) ∧
    ({ Name := "credentials"
       VolumeSource := { Secret := some { SecretName := awsCredsSecretName } } } : Volume)
      ∈ (HyperShiftOperatorDeployment.Build sampleOperatorDeploymentAWS).podVolumes :=
  ⟨(operatorDeployment_credentials_wiring sampleOperatorDeploymentAWS).1,
   ((operatorDeployment_credentials_wiring sampleOperatorDeploymentAWS).2.2 (by decide)).1⟩

/-- C10: in both deployment builders, every volume mount name appearing in a
container of the built deployment names a volume declared in the same pod
spec, in every conditional branch. -/
theorem deployment_mounts_covered (o₁ : ExternalDNSDeployment)
    (o₂ : HyperShiftOperatorDeployment) :
    o₁.Build.mountsCovered = true ∧ o₂.Build.mountsCovered = true := by
  constructor
  · by_cases hp : o₁.Provider = "aws"
    · simp [ExternalDNSDeployment.Build, Deployment.mountsCovered, Deployment.podVolumes,
        Deployment.containers, Deployment.appendEnv0, Deployment.appendArgs0,
        Deployment.updateContainer0, hp]
    · have hp' : (o₁.Provider == "aws") = false := beq_eq_false_iff_ne.mpr hp
      simp [ExternalDNSDeployment.Build, Deployment.mountsCovered, Deployment.podVolumes,
        Deployment.containers, Deployment.appendEnv0, Deployment.appendArgs0,
        Deployment.updateContainer0, hp']
  · by_cases hn : o₂.PrivatePlatform = NonePlatform
    · cases ho : o₂.oidcEnabled <;>
        simp [HyperShiftOperatorDeployment.Build, Deployment.mountsCovered,
          Deployment.podVolumes, Deployment.containers, Deployment.appendVolumes,
          Deployment.appendEnv0, Deployment.appendVolumeMounts0, Deployment.updateContainer0,
          hn, ho, NonePlatform, AWSPlatform]
    · have hn' : (o₂.PrivatePlatform == "none") = false := beq_eq_false_iff_ne.mpr hn
      by_cases ha : o₂.PrivatePlatform = AWSPlatform
      · cases ho : o₂.oidcEnabled <;>
          simp [HyperShiftOperatorDeployment.Build, Deployment.mountsCovered,
            Deployment.podVolumes, Deployment.containers, Deployment.appendVolumes,
            Deployment.appendEnv0, Deployment.appendVolumeMounts0, Deployment.updateContainer0,
            hn', ha, ho, NonePlatform, AWSPlatform]
      · have ha' : (o₂.PrivatePlatform == "aws") = false := beq_eq_false_iff_ne.mpr ha
        cases ho : o₂.oidcEnabled <;>
          simp [HyperShiftOperatorDeployment.Build, Deployment.mountsCovered,
            Deployment.podVolumes, Deployment.containers, Deployment.appendVolumes,
            Deployment.appendEnv0, Deployment.appendVolumeMounts0, Deployment.updateContainer0,
            hn', ha', ho, NonePlatform, AWSPlatform]

/-- C9: the external-dns container's environment is exactly the two AWS
variables (with AWS_REGION fixed to "us-east-1") when the provider is "aws"
and empty otherwise, and its args are the six base arguments with
"--aws-zone-type=public" appended exactly when the provider is "aws". -/
theorem externalDNSDeployment_provider_branch (o : ExternalDNSDeployment) :
    ∃ c, o.Build.containers = [c] ∧
      c.Env = (if o.Provider == "aws" then
          [{ Name := "AWS_SHARED_CREDENTIALS_FILE", Value := "/etc/provider/credentials" },
           { Name := "AWS_REGION", Value := "us-east-1" }]
        else []) ∧
      c.Args =
        ["--source=service", "--source=openshift-route",
         "--domain-filter=" ++ o.DomainFilter, "--provider=" ++ o.Provider,
         "--registry=noop", "--txt-owner-id=hypershift"] ++
        (if o.Provider == "aws" then ["--aws-zone-type=public"] else []) := by
  by_cases hp : o.Provider = "aws"
  · simp [ExternalDNSDeployment.Build, Deployment.containers, Deployment.appendEnv0,
      Deployment.appendArgs0, Deployment.updateContainer0, hp]
  · have hp' : (o.Provider == "aws") = false := beq_eq_false_iff_ne.mpr hp
    simp [ExternalDNSDeployment.Build, Deployment.containers, Deployment.appendEnv0,
      Deployment.appendArgs0, Deployment.updateContainer0, hp']

/-- Counterexample to C2: at a concrete configuration whose credentials secret
is built by `ExternalDNSCredsSecret.Build`, the volume mount in the built
deployment's container is named "credentials" while the secret's Name is
"external-dns-credentials", so the mount name does not equal the secret's
Name. -/
theorem externalDNS_mountName_counterexample :
    ∃ c ∈ (ExternalDNSDeployment.Build sampleExternalDNSDeployment).containers,
      ∃ m ∈ c.VolumeMounts,
        m.Name ≠ sampleExternalDNSDeployment.CredentialsSecret.Name := by decide

/-- C2 (amended): in the deployment built by `ExternalDNSDeployment.Build`,
the container's volume mount is named "credentials", which is the name of the
declared volume, and that volume references the credentials Secret through
its SecretName, which equals the Secret's Name field. -/
theorem externalDNS_mount_matches_volume (o : ExternalDNSDeployment) :
    ∃ c ∈ o.Build.containers, ∃ m ∈ c.VolumeMounts,
      m.Name = "credentials" ∧
      ∃ v ∈ o.Build.podVolumes, v.Name = m.Name ∧
        v.VolumeSource.Secret = some { SecretName := o.CredentialsSecret.Name } := by
  by_cases hp : o.Provider = "aws"
  · simp [ExternalDNSDeployment.Build, Deployment.containers, Deployment.podVolumes,
      Deployment.appendEnv0, Deployment.appendArgs0, Deployment.updateContainer0, hp]
  · have hp' : (o.Provider == "aws") = false := beq_eq_false_iff_ne.mpr hp
    simp [ExternalDNSDeployment.Build, Deployment.containers, Deployment.podVolumes,
      Deployment.appendEnv0, Deployment.appendArgs0, Deployment.updateContainer0, hp']

/-- A string has positive length exactly when it is not the empty string
(Go's `len(s) > 0`). -/
theorem string_pos_iff_ne_empty (s : String) : 0 < s.length ↔ s ≠ "" := by
  obtain ⟨l⟩ := s
  simp [String.length, String.ext_iff, List.length_pos]

/-- The OIDC guard holds exactly when the three OIDC string fields are
non-empty and the OIDC secret is present with a non-empty name. -/
theorem oidcEnabled_iff (o : HyperShiftOperatorDeployment) :
    o.oidcEnabled = true ↔
      (o.OIDCBucketName ≠ "" ∧ o.OIDCBucketRegion ≠ "" ∧
       o.OIDCStorageProviderS3SecretKey ≠ "" ∧
       ∃ s, o.OIDCStorageProviderS3Secret = some s ∧ s.Name ≠ "") := by
  cases hs : o.OIDCStorageProviderS3Secret with
  | none => simp [HyperShiftOperatorDeployment.oidcEnabled, hs]
  | some s =>
    simp [HyperShiftOperatorDeployment.oidcEnabled, hs, string_pos_iff_ne_empty, and_assoc]

/-- Two strings differ when, at some index inside the left one's prefix, their
characters differ (helper for refuting argument coincidences). -/
theorem append_ne_str {n : Nat} {a x b : String} (ha : n < a.data.length)
    (h : a.data.get? n ≠ b.data.get? n) : a ++ x ≠ b := by
  intro he
  apply h
  rw [← he, String.data_append, List.get?_append ha]

/-- Two appends differ when their literal prefixes differ at an index inside
both (helper for refuting argument coincidences). -/
theorem append_ne_append {n : Nat} {a x b y : String} (ha : n < a.data.length)
    (hb : n < b.data.length) (h : a.data.get? n ≠ b.data.get? n) : a ++ x ≠ b ++ y := by
  intro he
  apply h
  have h2 := congrArg (fun s : String => s.data.get? n) he
  simp only [String.data_append] at h2
  rwa [List.get?_append ha, List.get?_append hb] at h2

/-- None of the three OIDC arguments can coincide with a base argument,
whatever the configuration strings are: they all start with "--oidc-" while
every base argument differs from that in its third character. -/
theorem oidc_args_not_in_base (o : HyperShiftOperatorDeployment) :
    ("--oidc-storage-provider-s3-bucket-name=" ++ o.OIDCBucketName) ∉ o.baseArgs ∧
    ("--oidc-storage-provider-s3-region=" ++ o.OIDCBucketRegion) ∉ o.baseArgs ∧
    ("--oidc-storage-provider-s3-credentials=/etc/oidc-storage-provider-s3-creds/" ++
      o.OIDCStorageProviderS3SecretKey) ∉ o.baseArgs := by
  refine ⟨?_, ?_, ?_⟩ <;>
  · simp only [HyperShiftOperatorDeployment.baseArgs, List.mem_cons, List.not_mem_nil,
      or_false]
    push_neg
    exact ⟨append_ne_str (n := 2) (by decide) (by decide),
           append_ne_str (n := 2) (by decide) (by decide),
           append_ne_str (n := 2) (by decide) (by decide),
           append_ne_str (n := 2) (by decide) (by decide),
           append_ne_append (n := 2) (by decide) (by decide) (by decide),
           append_ne_append (n := 2) (by decide) (by decide) (by decide),
           append_ne_append (n := 2) (by decide) (by decide) (by decide)⟩

/-- The operator deployment has exactly one container, whose args are the
base arguments followed by the three OIDC arguments exactly when the OIDC
guard holds. -/
theorem operatorBuild_container_shape (o : HyperShiftOperatorDeployment) :
    ∃ c, o.Build.containers = [c] ∧
      c.Args = (if o.oidcEnabled then
        o.baseArgs ++
          ["--oidc-storage-provider-s3-bucket-name=" ++ o.OIDCBucketName,
           "--oidc-storage-provider-s3-region=" ++ o.OIDCBucketRegion,
           "--oidc-storage-provider-s3-credentials=/etc/oidc-storage-provider-s3-creds/" ++
             o.OIDCStorageProviderS3SecretKey]
        else o.baseArgs) := by
  by_cases hn : o.PrivatePlatform = NonePlatform
  · cases ho : o.oidcEnabled <;>
      simp [HyperShiftOperatorDeployment.Build, Deployment.containers,
        Deployment.appendVolumes, Deployment.appendEnv0, Deployment.appendVolumeMounts0,
        Deployment.updateContainer0, hn, ho, NonePlatform, AWSPlatform]
  · have hn' : (o.PrivatePlatform == "none") = false := beq_eq_false_iff_ne.mpr hn
    by_cases ha : o.PrivatePlatform = AWSPlatform
    · cases ho : o.oidcEnabled <;>
        simp [HyperShiftOperatorDeployment.Build, Deployment.containers,
          Deployment.appendVolumes, Deployment.appendEnv0, Deployment.appendVolumeMounts0,
          Deployment.updateContainer0, hn', ha, ho, NonePlatform, AWSPlatform]
    · have ha' : (o.PrivatePlatform == "aws") = false := beq_eq_false_iff_ne.mpr ha
      cases ho : o.oidcEnabled <;>
        simp [HyperShiftOperatorDeployment.Build, Deployment.containers,
          Deployment.appendVolumes, Deployment.appendEnv0, Deployment.appendVolumeMounts0,
          Deployment.updateContainer0, hn', ha', ho, NonePlatform, AWSPlatform]

/-- The operator deployment declares the OIDC creds volume exactly when the
OIDC guard holds. -/
theorem operatorBuild_oidcVolume (o : HyperShiftOperatorDeployment) :
    o.Build.hasVolumeNamed "oidc-storage-provider-s3-creds" = o.oidcEnabled := by
  by_cases hn : o.PrivatePlatform = NonePlatform
  · cases ho : o.oidcEnabled <;>
      simp [HyperShiftOperatorDeployment.Build, Deployment.hasVolumeNamed,
        Deployment.podVolumes, Deployment.appendVolumes, Deployment.appendEnv0,
        Deployment.appendVolumeMounts0, Deployment.updateContainer0, hn, ho,
        NonePlatform, AWSPlatform]
  · have hn' : (o.PrivatePlatform == "none") = false := beq_eq_false_iff_ne.mpr hn
    by_cases ha : o.PrivatePlatform = AWSPlatform
    · cases ho : o.oidcEnabled <;>
        simp [HyperShiftOperatorDeployment.Build, Deployment.hasVolumeNamed,
          Deployment.podVolumes, Deployment.appendVolumes, Deployment.appendEnv0,
          Deployment.appendVolumeMounts0, Deployment.updateContainer0, hn', ha, ho,
          NonePlatform, AWSPlatform]
    · have ha' : (o.PrivatePlatform == "aws") = false := beq_eq_false_iff_ne.mpr ha
      cases ho : o.oidcEnabled <;>
        simp [HyperShiftOperatorDeployment.Build, Deployment.hasVolumeNamed,
          Deployment.podVolumes, Deployment.appendVolumes, Deployment.appendEnv0,
          Deployment.appendVolumeMounts0, Deployment.updateContainer0, hn', ha', ho,
          NonePlatform, AWSPlatform]

/-- The operator container has the OIDC creds volume mount exactly when the
OIDC guard holds. -/
theorem operatorBuild_oidcMount (o : HyperShiftOperatorDeployment) :
    o.Build.hasMountNamed "oidc-storage-provider-s3-creds" = o.oidcEnabled := by
  by_cases hn : o.PrivatePlatform = NonePlatform
  · cases ho : o.oidcEnabled <;>
      simp [HyperShiftOperatorDeployment.Build, Deployment.hasMountNamed,
        Deployment.containers, Deployment.appendVolumes, Deployment.appendEnv0,
        Deployment.appendVolumeMounts0, Deployment.updateContainer0, hn, ho,
        NonePlatform, AWSPlatform]
  · have hn' : (o.PrivatePlatform == "none") = false := beq_eq_false_iff_ne.mpr hn
    by_cases ha : o.PrivatePlatform = AWSPlatform
    · cases ho : o.oidcEnabled <;>
        simp [HyperShiftOperatorDeployment.Build, Deployment.hasMountNamed,
          Deployment.containers, Deployment.appendVolumes, Deployment.appendEnv0,
          Deployment.appendVolumeMounts0, Deployment.updateContainer0, hn', ha, ho,
          NonePlatform, AWSPlatform]
    · have ha' : (o.PrivatePlatform == "aws") = false := beq_eq_false_iff_ne.mpr ha
      cases ho : o.oidcEnabled <;>
        simp [HyperShiftOperatorDeployment.Build, Deployment.hasMountNamed,
          Deployment.containers, Deployment.appendVolumes, Deployment.appendEnv0,
          Deployment.appendVolumeMounts0, Deployment.updateContainer0, hn', ha', ho,
          NonePlatform, AWSPlatform]

/-- C4: the deployment built by `HyperShiftOperatorDeployment.Build` contains
the three --oidc-storage-provider-s3-* arguments, the OIDC creds volume, and
its volume mount, each exactly when OIDCBucketName, OIDCBucketRegion and
OIDCStorageProviderS3SecretKey are non-empty and the OIDC secret is present
with a non-empty name; when the condition fails, none of the three is
present. -/
theorem operatorDeployment_oidc_gating (o : HyperShiftOperatorDeployment) :
    ((∃ c ∈ o.Build.containers,
        ("--oidc-storage-provider-s3-bucket-name=" ++ o.OIDCBucketName) ∈ c.Args ∧
        ("--oidc-storage-provider-s3-region=" ++ o.OIDCBucketRegion) ∈ c.Args ∧
        ("--oidc-storage-provider-s3-credentials=/etc/oidc-storage-provider-s3-creds/" ++
          o.OIDCStorageProviderS3SecretKey) ∈ c.Args) ↔
      (o.OIDCBucketName ≠ "" ∧ o.OIDCBucketRegion ≠ "" ∧
       o.OIDCStorageProviderS3SecretKey ≠ "" ∧
       ∃ s, o.OIDCStorageProviderS3Secret = some s ∧ s.Name ≠ "")) ∧
    ((o.Build.hasVolumeNamed "oidc-storage-provider-s3-creds" = true) ↔
      (o.OIDCBucketName ≠ "" ∧ o.OIDCBucketRegion ≠ "" ∧
       o.OIDCStorageProviderS3SecretKey ≠ "" ∧
       ∃ s, o.OIDCStorageProviderS3Secret = some s ∧ s.Name ≠ "")) ∧
    ((o.Build.hasMountNamed "oidc-storage-provider-s3-creds" = true) ↔
      (o.OIDCBucketName ≠ "" ∧ o.OIDCBucketRegion ≠ "" ∧
       o.OIDCStorageProviderS3SecretKey ≠ "" ∧
       ∃ s, o.OIDCStorageProviderS3Secret = some s ∧ s.Name ≠ "")) := by
  rw [← oidcEnabled_iff o]
  refine ⟨?_, by rw [operatorBuild_oidcVolume], by rw [operatorBuild_oidcMount]⟩
  obtain ⟨c0, hc0, hargs⟩ := operatorBuild_container_shape o
  cases ho : o.oidcEnabled
  · rw [ho] at hargs
    simp only [if_neg Bool.false_ne_true] at hargs
    simp only [ho, Bool.false_eq_true, iff_false]
    rw [hc0]
    rintro ⟨c, hc, h1, -, -⟩
    rw [List.mem_singleton] at hc
    subst hc
    rw [hargs] at h1
    exact (oidc_args_not_in_base o).1 h1
  · rw [ho] at hargs
    simp only [if_pos] at hargs
    simp only [ho, iff_true]
    rw [hc0]
    refine ⟨c0, List.mem_singleton_self c0, ?_, ?_, ?_⟩ <;> simp [hargs]

/-- Witness for C4: at the sample configuration with all OIDC fields set, the
gating condition holds and the OIDC creds volume is present. -/
theorem operatorDeployment_oidc_gating_witness :
    (HyperShiftOperatorDeployment.Build sampleOperatorDeploymentNone).hasVolumeNamed
      "oidc-storage-provider-s3-creds" = true :=
  (operatorDeployment_oidc_gating sampleOperatorDeploymentNone).2.1.mpr
    ⟨by decide, by decide, by decide, sampleSecret, rfl, by decide⟩

/-- C8: the command returned by `NewDestroyCommand` has use name "infra", the
source's short description and SilenceUsage setting, defines no flags of its
own, and registers exactly the two supplied child subcommands (the AWS and
Azure destroy commands, whatever those external packages return), in that
order. -/
theorem newDestroyCommand_shape (awsDestroyCommand azureDestroyCommand : CobraCommand) :
    (NewDestroyCommand awsDestroyCommand azureDestroyCommand).Use = "infra" ∧
    (NewDestroyCommand awsDestroyCommand azureDestroyCommand).Short =
      "Commands for destroying HyperShift infra resources" ∧
    (NewDestroyCommand awsDestroyCommand azureDestroyCommand).SilenceUsage = true ∧
    (NewDestroyCommand awsDestroyCommand azureDestroyCommand).Flags = [] ∧
    (NewDestroyCommand awsDestroyCommand azureDestroyCommand).Commands =
      [awsDestroyCommand, azureDestroyCommand] :=
  ⟨rfl, rfl, rfl, rfl, rfl⟩

end HyperShiftAssets



